import Mathlib

/-!
Verification development for the settings codec of tdesktop
(src/Telegram/SourceFiles/auth_session.cpp).

The development shallowly embeds AuthSessionSettings::serialize,
AuthSessionSettings::constructFromSerialized and the tabbed-selector /
third-section setter methods.  Byte sequences are lists of natural
numbers; the Qt data stream (QDataStream, version Qt_5_1, big-endian)
is modelled by a ByteStream carrying the remaining bytes and the
stream status (ok = true corresponds to QDataStream::Ok).  A read past
the end of the buffer consumes the remaining bytes, yields a zero
value and switches the status off, and every later read on a failed
stream is a no-op yielding a zero value, exactly as QDataStream does.
Machine integers are modelled as Int (qint32, two's complement mod
2^32 on the wire) and Nat (quint32, quint64); the float64
dialogsWidthRatio field is modelled as an exact rational.
-/

namespace AuthSessionSettings

/-- QDataStream model: remaining bytes plus status flag
(ok = true is QDataStream::Ok). -/
structure ByteStream where
  data : List Nat
  ok : Bool
deriving DecidableEq

/-- Big-endian bytes of a 32-bit unsigned integer, as QDataStream writes it. -/
def writeUInt32 (n : Nat) : List Nat :=
  [n / 16777216 % 256, n / 65536 % 256, n / 256 % 256, n % 256]

/-- Big-endian bytes of a 64-bit unsigned integer (quint64). -/
def writeUInt64 (n : Nat) : List Nat :=
  [n / 72057594037927936 % 256, n / 281474976710656 % 256,
   n / 1099511627776 % 256, n / 4294967296 % 256,
   n / 16777216 % 256, n / 65536 % 256, n / 256 % 256, n % 256]

/-- Bytes of a qint32: the value is written modulo 2^32 (two's complement). -/
def writeInt32 (v : Int) : List Nat :=
  writeUInt32 (v % 4294967296).toNat

/-- Read a quint32.  On a failed stream the read is a no-op yielding 0;
reading past the end consumes the remaining bytes, yields 0, and marks
the stream as failed (QDataStream::ReadPastEnd). -/
def readUInt32 (s : ByteStream) : Nat × ByteStream :=
  if s.ok = false then (0, s)
  else match s.data with
    | b0 :: b1 :: b2 :: b3 :: rest =>
        (((b0 * 256 + b1) * 256 + b2) * 256 + b3, ⟨rest, true⟩)
    | _ => (0, ⟨[], false⟩)

/-- Read a quint64, with the same failure behaviour as readUInt32. -/
def readUInt64 (s : ByteStream) : Nat × ByteStream :=
  if s.ok = false then (0, s)
  else match s.data with
    | b0 :: b1 :: b2 :: b3 :: b4 :: b5 :: b6 :: b7 :: rest =>
        ((((((((b0 * 256 + b1) * 256 + b2) * 256 + b3) * 256 + b4) * 256 + b5)
            * 256 + b6) * 256 + b7, ⟨rest, true⟩))
    | _ => (0, ⟨[], false⟩)

/-- Two's-complement reading of a 32-bit pattern as a signed value. -/
def toSigned32 (n : Nat) : Int :=
  if n < 2147483648 then (n : Int) else (n : Int) - 4294967296

/-- Read a qint32 (signed). -/
def readInt32 (s : ByteStream) : Int × ByteStream :=
  match readUInt32 s with
  | (n, s1) => (toSigned32 n, s1)

theorem readUInt32_append (n : Nat) (rest : List Nat) (h : n < 4294967296) :
    readUInt32 ⟨writeUInt32 n ++ rest, true⟩ = (n, ⟨rest, true⟩) := by
  have hn : ((n / 16777216 % 256 * 256 + n / 65536 % 256) * 256 + n / 256 % 256)
      * 256 + n % 256 = n := by omega
  simp [readUInt32, writeUInt32, hn]

theorem readUInt64_append (n : Nat) (rest : List Nat) (h : n < 18446744073709551616) :
    readUInt64 ⟨writeUInt64 n ++ rest, true⟩ = (n, ⟨rest, true⟩) := by
  have hn : ((((((n / 72057594037927936 % 256 * 256 + n / 281474976710656 % 256)
      * 256 + n / 1099511627776 % 256) * 256 + n / 4294967296 % 256)
      * 256 + n / 16777216 % 256) * 256 + n / 65536 % 256) * 256 + n / 256 % 256)
      * 256 + n % 256 = n := by omega
  simp [readUInt64, writeUInt64, hn]

theorem readInt32_append (v : Int) (rest : List Nat)
    (h1 : -2147483648 ≤ v) (h2 : v < 2147483648) :
    readInt32 ⟨writeInt32 v ++ rest, true⟩ = (v, ⟨rest, true⟩) := by
  rw [readInt32, writeInt32, readUInt32_append _ _ (by omega)]
  have hs : toSigned32 (v % 4294967296).toNat = v := by
    unfold toSigned32; split <;> omega
  simp [hs]

/-- UTF-16 code units of a QString, two big-endian bytes per unit. -/
def encodeUnits : List Nat → List Nat
  | [] => []
  | c :: rest => c / 256 % 256 :: c % 256 :: encodeUnits rest

/-- Inverse of encodeUnits: regroup bytes into 16-bit units. -/
def bytesToUnits : List Nat → List Nat
  | b0 :: b1 :: rest => (b0 * 256 + b1) :: bytesToUnits rest
  | _ => []

theorem length_encodeUnits (u : List Nat) : (encodeUnits u).length = 2 * u.length := by
  induction u with
  | nil => rfl
  | cons c rest ih => simp [encodeUnits, ih]; omega

theorem bytesToUnits_encodeUnits (u : List Nat) (h : ∀ c ∈ u, c < 65536) :
    bytesToUnits (encodeUnits u) = u := by
  induction u with
  | nil => rfl
  | cons c rest ih =>
    have hc : c < 65536 := h c (by simp)
    have hrest : ∀ x ∈ rest, x < 65536 := fun x hx => h x (by simp [hx])
    simp only [encodeUnits, bytesToUnits, ih hrest, List.cons.injEq, and_true]
    omega

/-- Serialized form of a (non-null) QString: quint32 byte count
(twice the number of UTF-16 units), then the big-endian units. -/
def writeQString (u : List Nat) : List Nat :=
  writeUInt32 (2 * u.length) ++ encodeUnits u

/-- Read a QString: byte count first (0xFFFFFFFF denotes the null string,
an odd count is corrupt data), then the units.  A failed or short read
clears the result, as QDataStream does. -/
def readQString (s : ByteStream) : List Nat × ByteStream :=
  match readUInt32 s with
  | (n, s1) =>
    if s1.ok = false then ([], s1)
    else if n = 4294967295 then ([], s1)
    else if n % 2 = 1 then ([], ⟨s1.data, false⟩)
    else if n ≤ s1.data.length then
      (bytesToUnits (s1.data.take n), ⟨s1.data.drop n, true⟩)
    else ([], ⟨[], false⟩)

theorem readQString_append (u : List Nat) (rest : List Nat)
    (hlen : u.length < 2147483648) (hu : ∀ c ∈ u, c < 65536) :
    readQString ⟨writeQString u ++ rest, true⟩ = (u, ⟨rest, true⟩) := by
  have hlen2 : (encodeUnits u).length = 2 * u.length := length_encodeUnits u
  have c1 : ¬(2 * u.length = 4294967295) := by omega
  have c2 : ¬(2 * u.length % 2 = 1) := by omega
  have c3 : 2 * u.length ≤ (encodeUnits u ++ rest).length := by
    rw [List.length_append, hlen2]; omega
  rw [writeQString, List.append_assoc]
  simp only [readQString, readUInt32_append _ _ (by omega : 2 * u.length < 4294967296)]
  simp only [Bool.true_eq_false, if_false, c1, c2, c3, ite_false, if_pos]
  rw [← hlen2, List.take_left, List.drop_left, bytesToUnits_encodeUnits u hu]

/-- Serialized form of a (non-null) QByteArray: quint32 length, then raw bytes. -/
def writeQByteArray (b : List Nat) : List Nat :=
  writeUInt32 b.length ++ b

/-- Read a QByteArray: quint32 length (0xFFFFFFFF denotes null), then bytes. -/
def readQByteArray (s : ByteStream) : List Nat × ByteStream :=
  match readUInt32 s with
  | (n, s1) =>
    if s1.ok = false then ([], s1)
    else if n = 4294967295 then ([], s1)
    else if n ≤ s1.data.length then
      (s1.data.take n, ⟨s1.data.drop n, true⟩)
    else ([], ⟨[], false⟩)

theorem readQByteArray_append (b : List Nat) (rest : List Nat)
    (hlen : b.length < 2147483648) :
    readQByteArray ⟨writeQByteArray b ++ rest, true⟩ = (b, ⟨rest, true⟩) := by
  have c1 : ¬(b.length = 4294967295) := by omega
  have c2 : b.length ≤ (b ++ rest).length := by
    rw [List.length_append]; omega
  rw [writeQByteArray, List.append_assoc]
  simp only [readQByteArray, readUInt32_append _ _ (by omega : b.length < 4294967296)]
  simp only [Bool.true_eq_false, if_false, c1, c2, ite_false, if_pos]
  rw [List.take_left, List.drop_left]

/-- Lexicographic comparison of QStrings (lists of UTF-16 units),
mirroring the QString ordering that drives QMap iteration. -/
def listLt : List Nat → List Nat → Bool
  | [], [] => false
  | _ :: _, [] => false
  | [], _ :: _ => true
  | x :: xs, y :: ys =>
    if x < y then true else if y < x then false else listLt xs ys

theorem listLt_irrefl : ∀ a, listLt a a = false := by
  intro a
  induction a with
  | nil => rfl
  | cons x xs ih => simp [listLt, ih]

theorem listLt_asymm : ∀ a b, listLt a b = true → listLt b a = false := by
  intro a
  induction a with
  | nil =>
    intro b h
    cases b with
    | nil => simp [listLt] at h
    | cons y ys => simp [listLt]
  | cons x xs ih =>
    intro b h
    cases b with
    | nil => simp [listLt] at h
    | cons y ys =>
      simp only [listLt] at h ⊢
      by_cases hxy : x < y
      · rw [if_neg (by omega), if_pos (by omega)]
      · rw [if_neg hxy] at h
        by_cases hyx : y < x
        · rw [if_pos hyx] at h; exact absurd h (by simp)
        · rw [if_neg hyx] at h
          rw [if_neg (by omega), if_neg (by omega)]
          exact ih ys h

theorem listLt_ne : ∀ a b, listLt a b = true → a ≠ b := by
  intro a b h he
  subst he
  rw [listLt_irrefl] at h
  exact absurd h (by simp)

/-- QMap::operator[] assignment: sorted insertion by key, replacing an
existing entry with an equal key. -/
def mapInsert : List (List Nat × List Nat) → List Nat → List Nat →
    List (List Nat × List Nat)
  | [], key, value => [(key, value)]
  | (k, v) :: rest, key, value =>
    if listLt key k then (key, value) :: (k, v) :: rest
    else if key = k then (key, value) :: rest
    else (k, v) :: mapInsert rest key value

theorem mapInsert_gt : ∀ (m : List (List Nat × List Nat)) key value,
    (∀ p ∈ m, listLt p.1 key = true) →
    mapInsert m key value = m ++ [(key, value)] := by
  intro m
  induction m with
  | nil => intros; rfl
  | cons p rest ih =>
    intro key value h
    obtain ⟨k, v⟩ := p
    have h1 : listLt k key = true := h (k, v) (by simp)
    have c1 : listLt key k = false := listLt_asymm _ _ h1
    have c2 : ¬(key = k) := fun he => listLt_ne _ _ h1 (by rw [he])
    simp only [mapInsert, c1, Bool.false_eq_true, if_false, c2,
      List.cons_append, List.cons.injEq, true_and]
    exact ih key value (fun q hq => h q (by simp [hq]))

/-- Folding QMap insertions over a decoded pair sequence. -/
def insertAll (m : List (List Nat × List Nat))
    (ps : List (List Nat × List Nat)) : List (List Nat × List Nat) :=
  ps.foldl (fun acc p => mapInsert acc p.1 p.2) m

theorem insertAll_sorted : ∀ (ps m : List (List Nat × List Nat)),
    List.Pairwise (fun p q => listLt p.1 q.1 = true) ps →
    (∀ p ∈ m, ∀ q ∈ ps, listLt p.1 q.1 = true) →
    insertAll m ps = m ++ ps := by
  intro ps
  induction ps with
  | nil => intros; simp [insertAll]
  | cons p rest ih =>
    intro m hp hm
    obtain ⟨hphead, hptail⟩ := List.pairwise_cons.mp hp
    have h1 : mapInsert m p.1 p.2 = m ++ [p] :=
      mapInsert_gt m p.1 p.2 (fun q hq => hm q hq p (by simp))
    have h2 : ∀ q ∈ m ++ [p], ∀ x ∈ rest, listLt q.1 x.1 = true := by
      intro q hq x hx
      rcases List.mem_append.mp hq with hq1 | hq2
      · exact hm q hq1 x (by simp [hx])
      · have : q = p := by simpa using hq2
        subst this
        exact hphead x hx
    calc insertAll m (p :: rest)
        = insertAll (mapInsert m p.1 p.2) rest := by
          simp [insertAll]
      _ = (m ++ [p]) ++ rest := by rw [h1]; exact ih (m ++ [p]) hptail h2
      _ = m ++ p :: rest := by simp

/-- base::flat_set insertion: sorted insertion without duplicates. -/
def setInsert : List Nat → Nat → List Nat
  | [], x => [x]
  | y :: rest, x =>
    if x < y then x :: y :: rest
    else if x = y then y :: rest
    else y :: setInsert rest x

theorem setInsert_gt : ∀ (s : List Nat) x, (∀ y ∈ s, y < x) →
    setInsert s x = s ++ [x] := by
  intro s
  induction s with
  | nil => intros; rfl
  | cons y rest ih =>
    intro x h
    have h1 : y < x := h y (by simp)
    simp only [setInsert, if_neg (by omega : ¬x < y), if_neg (by omega : ¬x = y),
      List.cons_append, List.cons.injEq, true_and]
    exact ih x (fun z hz => h z (by simp [hz]))

/-- Folding flat_set insertions over a decoded identifier sequence. -/
def insertAllIds (s : List Nat) (ids : List Nat) : List Nat :=
  ids.foldl setInsert s

theorem insertAllIds_sorted : ∀ (ids s : List Nat),
    List.Pairwise (· < ·) ids →
    (∀ y ∈ s, ∀ x ∈ ids, y < x) →
    insertAllIds s ids = s ++ ids := by
  intro ids
  induction ids with
  | nil => intros; simp [insertAllIds]
  | cons x rest ih =>
    intro s hp hs
    obtain ⟨hphead, hptail⟩ := List.pairwise_cons.mp hp
    have h1 : setInsert s x = s ++ [x] :=
      setInsert_gt s x (fun y hy => hs y hy x (by simp))
    have h2 : ∀ y ∈ s ++ [x], ∀ z ∈ rest, y < z := by
      intro y hy z hz
      rcases List.mem_append.mp hy with hy1 | hy2
      · exact hs y hy1 z (by simp [hz])
      · have : y = x := by simpa using hy2
        subst this
        exact hphead z hz
    calc insertAllIds s (x :: rest)
        = insertAllIds (setInsert s x) rest := by simp [insertAllIds]
      _ = (s ++ [x]) ++ rest := by rw [h1]; exact ih (s ++ [x]) hptail h2
      _ = s ++ x :: rest := by simp

/-- Serialized form of the sound-override pairs, in QMap iteration order. -/
def encodePairs : List (List Nat × List Nat) → List Nat
  | [] => []
  | (k, v) :: rest => writeQString k ++ writeQString v ++ encodePairs rest

/-- Serialized form of the hidden-section identifiers, in flat_set order. -/
def encodeIds : List Nat → List Nat
  | [] => []
  | x :: rest => writeUInt64 x ++ encodeIds rest

/-- Number of iterations of the C++ counting loop
(for i = 0; i != count; ++i) with a 32-bit loop variable: the signed
count is reduced modulo 2^32, so the loop body runs finitely often for
every count value, negative counts included (two's-complement wraparound). -/
def loopIterations (count : Int) : Nat :=
  (count % 4294967296).toNat

theorem loopIterations_ofNat (count : Int)
    (h1 : 0 ≤ count) (h2 : count < 2147483648) :
    loopIterations count = count.toNat := by
  unfold loopIterations; omega

/-- The sound-override reading loop (auth_session.cpp lines 146-150):
each iteration reads a key and a value string and stores the pair in
the scratch map; a failed stream makes the remaining reads no-ops. -/
def readSoundPairs : Nat → List (List Nat × List Nat) → ByteStream →
    List (List Nat × List Nat) × ByteStream
  | 0, acc, s => (acc, s)
  | n + 1, acc, s =>
    match readQString s with
    | (key, s1) =>
      match readQString s1 with
      | (value, s2) => readSoundPairs n (mapInsert acc key value) s2

/-- The hidden-section reading loop (auth_session.cpp lines 163-167). -/
def readHiddenIds : Nat → List Nat → ByteStream → List Nat × ByteStream
  | 0, acc, s => (acc, s)
  | n + 1, acc, s =>
    match readUInt64 s with
    | (id, s1) => readHiddenIds n (setInsert acc id) s1

theorem readSoundPairs_encode : ∀ (ps acc : List (List Nat × List Nat)) rest,
    (∀ p ∈ ps, p.1.length < 2147483648 ∧ p.2.length < 2147483648 ∧
      (∀ c ∈ p.1, c < 65536) ∧ (∀ c ∈ p.2, c < 65536)) →
    readSoundPairs ps.length acc ⟨encodePairs ps ++ rest, true⟩
      = (insertAll acc ps, ⟨rest, true⟩) := by
  intro ps
  induction ps with
  | nil => intros; simp [readSoundPairs, encodePairs, insertAll]
  | cons p ptl ih =>
    intro acc rest h
    obtain ⟨k, v⟩ := p
    obtain ⟨hk1, hv1, hk2, hv2⟩ := h (k, v) (by simp)
    simp only [List.length_cons, encodePairs, List.append_assoc]
    rw [readSoundPairs]
    simp only [readQString_append _ _ hk1 hk2]
    simp only [readQString_append _ _ hv1 hv2]
    rw [ih (mapInsert acc k v) rest (fun q hq => h q (by simp [hq]))]
    simp [insertAll]

theorem readHiddenIds_encode : ∀ (ids s0 : List Nat) rest,
    (∀ x ∈ ids, x < 18446744073709551616) →
    readHiddenIds ids.length s0 ⟨encodeIds ids ++ rest, true⟩
      = (insertAllIds s0 ids, ⟨rest, true⟩) := by
  intro ids
  induction ids with
  | nil => intros; simp [readHiddenIds, encodeIds, insertAllIds]
  | cons x xtl ih =>
    intro s0 rest h
    simp only [List.length_cons, encodeIds, List.append_assoc]
    rw [readHiddenIds]
    simp only [readUInt64_append _ _ (h x (by simp))]
    rw [ih (setInsert s0 x) rest (fun z hz => h z (by simp [hz]))]
    simp [insertAllIds]

/-- ChatHelpers::SelectorTab.  Modelled from the spec: the header with
the enumerator values is not part of the analysed source; the closed
set of legal tags (Emoji, Stickers, Gifs) is taken from the validating
switch in constructFromSerialized, with consecutive values from 0 as
for an ordinary scoped enum. -/
inductive SelectorTab
  | Emoji
  | Stickers
  | Gifs
deriving DecidableEq

def selectorTabToInt : SelectorTab → Int
  | .Emoji => 0
  | .Stickers => 1
  | .Gifs => 2

def selectorTabFromInt (n : Int) : Option SelectorTab :=
  if n = 0 then some .Emoji
  else if n = 1 then some .Stickers
  else if n = 2 then some .Gifs
  else none

@[simp] theorem selectorTabFromInt_toInt (t : SelectorTab) :
    selectorTabFromInt (selectorTabToInt t) = some t := by
  cases t <;> rfl

/-- Window::Column.  Modelled from the spec: values of the legal tags
(First, Second, Third), consecutive from 0. -/
inductive Column
  | First
  | Second
  | Third
deriving DecidableEq

def columnToInt : Column → Int
  | .First => 0
  | .Second => 1
  | .Third => 2

def columnFromInt (n : Int) : Option Column :=
  if n = 0 then some .First
  else if n = 1 then some .Second
  else if n = 2 then some .Third
  else none

@[simp] theorem columnFromInt_toInt (c : Column) :
    columnFromInt (columnToInt c) = some c := by
  cases c <;> rfl

/-- RectPart corners.  Modelled from the spec: RectPart is a flags
enumeration outside the analysed source; only the four corner tags
accepted by the validating switch are modelled, as four distinct
bit values. -/
inductive RectPart
  | TopLeft
  | TopRight
  | BottomLeft
  | BottomRight
deriving DecidableEq

def rectPartToInt : RectPart → Int
  | .TopLeft => 1
  | .TopRight => 4
  | .BottomLeft => 64
  | .BottomRight => 256

def rectPartFromInt (n : Int) : Option RectPart :=
  if n = 1 then some .TopLeft
  else if n = 4 then some .TopRight
  else if n = 64 then some .BottomLeft
  else if n = 256 then some .BottomRight
  else none

@[simp] theorem rectPartFromInt_toInt (c : RectPart) :
    rectPartFromInt (rectPartToInt c) = some c := by
  cases c <;> rfl

/-- SendFilesWay.  Modelled from the spec: legal tags Album, Photos,
Files, consecutive from 0. -/
inductive SendFilesWay
  | Album
  | Photos
  | Files
deriving DecidableEq

def sendFilesWayToInt : SendFilesWay → Int
  | .Album => 0
  | .Photos => 1
  | .Files => 2

def sendFilesWayFromInt (n : Int) : Option SendFilesWay :=
  if n = 0 then some .Album
  else if n = 1 then some .Photos
  else if n = 2 then some .Files
  else none

@[simp] theorem sendFilesWayFromInt_toInt (w : SendFilesWay) :
    sendFilesWayFromInt (sendFilesWayToInt w) = some w := by
  cases w <;> rfl

/-- Ui::InputSubmitSettings.  Modelled from the spec: legal tags Enter
and CtrlEnter, consecutive from 0. -/
inductive InputSubmitSettings
  | Enter
  | CtrlEnter
deriving DecidableEq

def inputSubmitToInt : InputSubmitSettings → Int
  | .Enter => 0
  | .CtrlEnter => 1

def inputSubmitFromInt (n : Int) : Option InputSubmitSettings :=
  if n = 0 then some .Enter
  else if n = 1 then some .CtrlEnter
  else none

@[simp] theorem inputSubmitFromInt_toInt (w : InputSubmitSettings) :
    inputSubmitFromInt (inputSubmitToInt w) = some w := by
  cases w <;> rfl

/-- Support::SwitchSettings.  Modelled from the spec: legal tags None,
Next, Previous, consecutive from 0. -/
inductive SwitchSettings
  | None
  | Next
  | Previous
deriving DecidableEq

def switchSettingsToInt : SwitchSettings → Int
  | .None => 0
  | .Next => 1
  | .Previous => 2

def switchSettingsFromInt (n : Int) : Option SwitchSettings :=
  if n = 0 then some .None
  else if n = 1 then some .Next
  else if n = 2 then some .Previous
  else none

@[simp] theorem switchSettingsFromInt_toInt (w : SwitchSettings) :
    switchSettingsFromInt (switchSettingsToInt w) = some w := by
  cases w <;> rfl

def boolToInt (b : Bool) : Int := if b then 1 else 0

/-- qRound: round half away from zero (double rounding, exact here). -/
def qRoundQ (q : ℚ) : Int :=
  if 0 ≤ q then ⌊q + 1 / 2⌋ else -⌊1 / 2 - q⌋

/-- snap(value, lo, hi) = qMin(qMax(value, lo), hi) on integers. -/
def snapI (v lo hi : Int) : Int := min (max v lo) hi

/-- snap(value, lo, hi) = qMin(qMax(value, lo), hi) on rationals. -/
def snapQ (v lo hi : ℚ) : ℚ := min (max v lo) hi

/-- Line 177: dialogsWidthRatio = snap(value / 1000000., 0., 1.). -/
def decodeDialogsWidthRatio (value : Int) : ℚ :=
  snapQ ((value : ℚ) / 1000000) 0 1

/-- The live settings record (AuthSessionSettings::Variables).  The
auto-download sub-state is modelled from the spec by its serialized
byte sequence, since its own codec (Data::AutoDownload) is outside the
analysed source: the spec treats it as an opaque sub-blob handed whole
to a delegated codec. -/
structure Variables where
  selectorTab : SelectorTab
  lastSeenWarningSeen : Bool
  tabbedSelectorSectionEnabled : Bool
  soundOverrides : List (List Nat × List Nat)
  tabbedSelectorSectionTooltipShown : Int
  floatPlayerColumn : Column
  floatPlayerCorner : RectPart
  groupStickersSectionHidden : List Nat
  thirdSectionInfoEnabled : Bool
  smallDialogsList : Bool
  dialogsWidthRatio : ℚ
  thirdColumnWidth : Int
  thirdSectionExtendedBy : Int
  sendFilesWay : SendFilesWay
  hadLegacyCallsPeerToPeerNobody : Bool
  sendSubmitWay : InputSubmitSettings
  supportSwitch : SwitchSettings
  supportFixChatsOrder : Bool
  supportTemplatesAutocomplete : Bool
  supportChatsTimeSlice : Int
  includeMutedCounter : Bool
  countUnreadMessages : Bool
  exeLaunchWarning : Bool
  autoDownload : List Nat
  supportAllSearchResults : Bool
  archiveCollapsed : Bool
  notifyAboutPinned : Bool
deriving DecidableEq

/-- The default-constructed record.  The six enumeration defaults are
the ones set by the Variables constructor in the source (lines 39-46).
The remaining defaults are modelled from the spec: the header holding
them is not part of the analysed source, and the spec defines the
default of each field as the value the field keeps when absent from an
older-format blob, i.e. the scratch initializers of
constructFromSerialized (lines 109-135). -/
def defaultVariables : Variables where
  selectorTab := .Emoji
  lastSeenWarningSeen := false
  tabbedSelectorSectionEnabled := true
  soundOverrides := []
  tabbedSelectorSectionTooltipShown := 0
  floatPlayerColumn := .Second
  floatPlayerCorner := .TopRight
  groupStickersSectionHidden := []
  thirdSectionInfoEnabled := false
  smallDialogsList := false
  dialogsWidthRatio := 0
  thirdColumnWidth := 0
  thirdSectionExtendedBy := -1
  sendFilesWay := .Album
  hadLegacyCallsPeerToPeerNobody := false
  sendSubmitWay := .Enter
  supportSwitch := .Next
  supportFixChatsOrder := false
  supportTemplatesAutocomplete := false
  supportChatsTimeSlice := 0
  includeMutedCounter := false
  countUnreadMessages := false
  exeLaunchWarning := false
  autoDownload := []
  supportAllSearchResults := false
  archiveCollapsed := false
  notifyAboutPinned := false

/-- Size and range side of record validity: container sizes and plain
integer fields fit in the 32-bit wire types, strings are UTF-16 with
sorted unique QMap keys, and flat_set contents are sorted 64-bit
values. -/
def BoundedFields (r : Variables) : Prop :=
  List.Pairwise (fun p q => listLt p.1 q.1 = true) r.soundOverrides ∧
  (∀ p ∈ r.soundOverrides, p.1.length < 2147483648 ∧ p.2.length < 2147483648 ∧
    (∀ c ∈ p.1, c < 65536) ∧ (∀ c ∈ p.2, c < 65536)) ∧
  r.soundOverrides.length < 2147483648 ∧
  List.Pairwise (· < ·) r.groupStickersSectionHidden ∧
  (∀ x ∈ r.groupStickersSectionHidden, x < 18446744073709551616) ∧
  r.groupStickersSectionHidden.length < 2147483648 ∧
  -2147483648 ≤ r.tabbedSelectorSectionTooltipShown ∧
  r.tabbedSelectorSectionTooltipShown < 2147483648 ∧
  -2147483648 ≤ r.thirdColumnWidth ∧ r.thirdColumnWidth < 2147483648 ∧
  -2147483648 ≤ r.thirdSectionExtendedBy ∧ r.thirdSectionExtendedBy < 2147483648 ∧
  -2147483648 ≤ r.supportChatsTimeSlice ∧ r.supportChatsTimeSlice < 2147483648 ∧
  r.autoDownload.length < 2147483648

/-- A settings record as the running program can hold it: fields
bounded as on the wire, the two mutually exclusive panel flags
(enforced by every setter and by decode) not both set, and the width
ratio in the unit interval. -/
def ValidRecord (r : Variables) : Prop :=
  BoundedFields r ∧
  ¬(r.tabbedSelectorSectionEnabled = true ∧ r.thirdSectionInfoEnabled = true) ∧
  0 ≤ r.dialogsWidthRatio ∧ r.dialogsWidthRatio ≤ 1

/-- AuthSessionSettings::serialize (lines 48-100): the blob is the
concatenation, in fixed order, of the wire forms of every field.  The
legacy calls-peer-to-peer slot is always written as 0 (line 85); the
auto-download sub-state contributes its own serialized bytes as a
length-prefixed QByteArray (line 94). -/
def serialize (r : Variables) : List Nat :=
  writeInt32 (selectorTabToInt r.selectorTab)
  ++ writeInt32 (boolToInt r.lastSeenWarningSeen)
  ++ writeInt32 (boolToInt r.tabbedSelectorSectionEnabled)
  ++ writeInt32 (r.soundOverrides.length : Int)
  ++ encodePairs r.soundOverrides
  ++ writeInt32 r.tabbedSelectorSectionTooltipShown
  ++ writeInt32 (columnToInt r.floatPlayerColumn)
  ++ writeInt32 (rectPartToInt r.floatPlayerCorner)
  ++ writeInt32 (r.groupStickersSectionHidden.length : Int)
  ++ encodeIds r.groupStickersSectionHidden
  ++ writeInt32 (boolToInt r.thirdSectionInfoEnabled)
  ++ writeInt32 (boolToInt r.smallDialogsList)
  ++ writeInt32 (snapI (qRoundQ (r.dialogsWidthRatio * 1000000)) 0 1000000)
  ++ writeInt32 r.thirdColumnWidth
  ++ writeInt32 r.thirdSectionExtendedBy
  ++ writeInt32 (sendFilesWayToInt r.sendFilesWay)
  ++ writeInt32 0
  ++ writeInt32 (inputSubmitToInt r.sendSubmitWay)
  ++ writeInt32 (switchSettingsToInt r.supportSwitch)
  ++ writeInt32 (boolToInt r.supportFixChatsOrder)
  ++ writeInt32 (boolToInt r.supportTemplatesAutocomplete)
  ++ writeInt32 r.supportChatsTimeSlice
  ++ writeInt32 (boolToInt r.includeMutedCounter)
  ++ writeInt32 (boolToInt r.countUnreadMessages)
  ++ writeInt32 (boolToInt r.exeLaunchWarning)
  ++ writeQByteArray r.autoDownload
  ++ writeInt32 (boolToInt r.supportAllSearchResults)
  ++ writeInt32 (boolToInt r.archiveCollapsed)
  ++ writeInt32 (boolToInt r.notifyAboutPinned)

/-- The bytes of field group i (1 to 20) of the append-only layout; a
group is the span of fields guarded by one at-end check of decode. -/
def groupBytes (r : Variables) : Nat → List Nat
  | 1 => writeInt32 (selectorTabToInt r.selectorTab)
  | 2 => writeInt32 (boolToInt r.lastSeenWarningSeen)
  | 3 => writeInt32 (boolToInt r.tabbedSelectorSectionEnabled)
  | 4 => writeInt32 (r.soundOverrides.length : Int) ++ encodePairs r.soundOverrides
  | 5 => writeInt32 r.tabbedSelectorSectionTooltipShown
  | 6 =>
    writeInt32 (columnToInt r.floatPlayerColumn)
    ++ writeInt32 (rectPartToInt r.floatPlayerCorner)
  | 7 =>
    writeInt32 (r.groupStickersSectionHidden.length : Int)
    ++ encodeIds r.groupStickersSectionHidden
  | 8 =>
    writeInt32 (boolToInt r.thirdSectionInfoEnabled)
    ++ writeInt32 (boolToInt r.smallDialogsList)
  | 9 =>
    writeInt32 (snapI (qRoundQ (r.dialogsWidthRatio * 1000000)) 0 1000000)
    ++ writeInt32 r.thirdColumnWidth
    ++ writeInt32 r.thirdSectionExtendedBy
  | 10 => writeInt32 (sendFilesWayToInt r.sendFilesWay)
  | 11 => writeInt32 0
  | 12 =>
    writeInt32 (inputSubmitToInt r.sendSubmitWay)
    ++ writeInt32 (switchSettingsToInt r.supportSwitch)
    ++ writeInt32 (boolToInt r.supportFixChatsOrder)
  | 13 => writeInt32 (boolToInt r.supportTemplatesAutocomplete)
  | 14 => writeInt32 r.supportChatsTimeSlice
  | 15 =>
    writeInt32 (boolToInt r.includeMutedCounter)
    ++ writeInt32 (boolToInt r.countUnreadMessages)
  | 16 => writeInt32 (boolToInt r.exeLaunchWarning)
  | 17 => writeQByteArray r.autoDownload
  | 18 => writeInt32 (boolToInt r.supportAllSearchResults)
  | 19 => writeInt32 (boolToInt r.archiveCollapsed)
  | 20 => writeInt32 (boolToInt r.notifyAboutPinned)
  | _ => []

/-- Concatenation of the bytes of the listed field groups. -/
def concatGroups (r : Variables) (l : List Nat) : List Nat :=
  l.foldr (fun i acc => groupBytes r i ++ acc) []

/-- The blob truncated at the boundary after field group k: the
concatenation of the first k groups. -/
def serializeUpTo (r : Variables) (k : Nat) : List Nat :=
  concatGroups r (List.range' 1 k)

theorem concatGroups_cons (r : Variables) (i : Nat) (tl : List Nat) :
    concatGroups r (i :: tl) = groupBytes r i ++ concatGroups r tl := rfl

theorem range_one_twenty : List.range' 1 20 =
    [1, 2, 3, 4, 5, 6, 7, 8, 9, 10, 11, 12, 13, 14, 15, 16, 17, 18, 19, 20] := rfl

theorem serialize_eq_upTo (r : Variables) : serialize r = serializeUpTo r 20 := by
  rw [serializeUpTo, concatGroups, range_one_twenty]
  simp only [List.foldr_cons, List.foldr_nil]
  simp only [groupBytes]
  simp only [serialize, List.append_assoc, List.append_nil]

/-- The scratch values of constructFromSerialized (lines 109-135): one
local per wire field, initialized to the decode-absent default, which
for the later-added fields is the current value of the corresponding
record field. -/
structure Scratch where
  selectorTab : Int
  lastSeenWarningSeen : Int
  tabbedSelectorSectionEnabled : Int
  tabbedSelectorSectionTooltipShown : Int
  floatPlayerColumn : Int
  floatPlayerCorner : Int
  soundOverrides : List (List Nat × List Nat)
  groupStickersSectionHidden : List Nat
  thirdSectionInfoEnabled : Int
  smallDialogsList : Int
  dialogsWidthRatio : ℚ
  thirdColumnWidth : Int
  thirdSectionExtendedBy : Int
  sendFilesWay : Int
  legacyCallsPeerToPeer : Int
  sendSubmitWay : Int
  supportSwitch : Int
  supportFixChatsOrder : Int
  supportTemplatesAutocomplete : Int
  supportChatsTimeSlice : Int
  includeMutedCounter : Int
  countUnreadMessages : Int
  exeLaunchWarning : Int
  autoDownload : List Nat
  supportAllSearchResults : Int
  archiveCollapsed : Int
  notifyAboutPinned : Int
deriving DecidableEq

/-- Scratch initialization (lines 109-135) for a record v. -/
def initScratch (v : Variables) : Scratch where
  selectorTab := selectorTabToInt .Emoji
  lastSeenWarningSeen := 0
  tabbedSelectorSectionEnabled := 1
  tabbedSelectorSectionTooltipShown := 0
  floatPlayerColumn := columnToInt .Second
  floatPlayerCorner := rectPartToInt .TopRight
  soundOverrides := []
  groupStickersSectionHidden := []
  thirdSectionInfoEnabled := 0
  smallDialogsList := 0
  dialogsWidthRatio := v.dialogsWidthRatio
  thirdColumnWidth := v.thirdColumnWidth
  thirdSectionExtendedBy := v.thirdSectionExtendedBy
  sendFilesWay := sendFilesWayToInt v.sendFilesWay
  legacyCallsPeerToPeer := 0
  sendSubmitWay := inputSubmitToInt v.sendSubmitWay
  supportSwitch := switchSettingsToInt v.supportSwitch
  supportFixChatsOrder := boolToInt v.supportFixChatsOrder
  supportTemplatesAutocomplete := boolToInt v.supportTemplatesAutocomplete
  supportChatsTimeSlice := v.supportChatsTimeSlice
  includeMutedCounter := boolToInt v.includeMutedCounter
  countUnreadMessages := boolToInt v.countUnreadMessages
  exeLaunchWarning := boolToInt v.exeLaunchWarning
  autoDownload := []
  supportAllSearchResults := boolToInt v.supportAllSearchResults
  archiveCollapsed := boolToInt v.archiveCollapsed
  notifyAboutPinned := boolToInt v.notifyAboutPinned

/-- One field group of the reading phase of constructFromSerialized
(lines 137-220).  Groups 1 and 2 are read unconditionally; every later
group is guarded by an at-end check on the remaining stream, and the
two counting loops run their count modulo 2^32 with each iteration a
no-op once the stream has failed. -/
def decodeStep (p : Scratch × ByteStream) : Nat → Scratch × ByteStream
  | 1 =>
    match readInt32 p.2 with
    | (x, s) => ({ p.1 with selectorTab := x }, s)
  | 2 =>
    match readInt32 p.2 with
    | (x, s) => ({ p.1 with lastSeenWarningSeen := x }, s)
  | 3 =>
    if p.2.data.isEmpty then p
    else match readInt32 p.2 with
      | (x, s) => ({ p.1 with tabbedSelectorSectionEnabled := x }, s)
  | 4 =>
    if p.2.data.isEmpty then p
    else match readInt32 p.2 with
      | (count, s1) =>
        if s1.ok then
          match readSoundPairs (loopIterations count) p.1.soundOverrides s1 with
          | (m, s2) => ({ p.1 with soundOverrides := m }, s2)
        else (p.1, s1)
  | 5 =>
    if p.2.data.isEmpty then p
    else match readInt32 p.2 with
      | (x, s) => ({ p.1 with tabbedSelectorSectionTooltipShown := x }, s)
  | 6 =>
    if p.2.data.isEmpty then p
    else match readInt32 p.2 with
      | (x1, s1) =>
        match readInt32 s1 with
        | (x2, s2) =>
            ({ p.1 with floatPlayerColumn := x1, floatPlayerCorner := x2 }, s2)
  | 7 =>
    if p.2.data.isEmpty then p
    else match readInt32 p.2 with
      | (count, s1) =>
        if s1.ok then
          match readHiddenIds (loopIterations count) p.1.groupStickersSectionHidden s1 with
          | (ids, s2) => ({ p.1 with groupStickersSectionHidden := ids }, s2)
        else (p.1, s1)
  | 8 =>
    if p.2.data.isEmpty then p
    else match readInt32 p.2 with
      | (x1, s1) =>
        match readInt32 s1 with
        | (x2, s2) =>
            ({ p.1 with thirdSectionInfoEnabled := x1, smallDialogsList := x2 }, s2)
  | 9 =>
    if p.2.data.isEmpty then p
    else match readInt32 p.2 with
      | (v1, s1) =>
        match readInt32 s1 with
        | (v2, s2) =>
          match readInt32 s2 with
          | (v3, s3) =>
              (({ p.1 with
                  dialogsWidthRatio := decodeDialogsWidthRatio v1
                  thirdColumnWidth := v2
                  thirdSectionExtendedBy := v3 }, s3))
  | 10 =>
    if p.2.data.isEmpty then p
    else match readInt32 p.2 with
      | (x, s) => ({ p.1 with sendFilesWay := x }, s)
  | 11 =>
    if p.2.data.isEmpty then p
    else match readInt32 p.2 with
      | (x, s) => ({ p.1 with legacyCallsPeerToPeer := x }, s)
  | 12 =>
    if p.2.data.isEmpty then p
    else match readInt32 p.2 with
      | (x1, s1) =>
        match readInt32 s1 with
        | (x2, s2) =>
          match readInt32 s2 with
          | (x3, s3) =>
              (({ p.1 with
                  sendSubmitWay := x1
                  supportSwitch := x2
                  supportFixChatsOrder := x3 }, s3))
  | 13 =>
    if p.2.data.isEmpty then p
    else match readInt32 p.2 with
      | (x, s) => ({ p.1 with supportTemplatesAutocomplete := x }, s)
  | 14 =>
    if p.2.data.isEmpty then p
    else match readInt32 p.2 with
      | (x, s) => ({ p.1 with supportChatsTimeSlice := x }, s)
  | 15 =>
    if p.2.data.isEmpty then p
    else match readInt32 p.2 with
      | (x1, s1) =>
        match readInt32 s1 with
        | (x2, s2) =>
            ({ p.1 with includeMutedCounter := x1, countUnreadMessages := x2 }, s2)
  | 16 =>
    if p.2.data.isEmpty then p
    else match readInt32 p.2 with
      | (x, s) => ({ p.1 with exeLaunchWarning := x }, s)
  | 17 =>
    if p.2.data.isEmpty then p
    else match readQByteArray p.2 with
      | (b, s) => ({ p.1 with autoDownload := b }, s)
  | 18 =>
    if p.2.data.isEmpty then p
    else match readInt32 p.2 with
      | (x, s) => ({ p.1 with supportAllSearchResults := x }, s)
  | 19 =>
    if p.2.data.isEmpty then p
    else match readInt32 p.2 with
      | (x, s) => ({ p.1 with archiveCollapsed := x }, s)
  | 20 =>
    if p.2.data.isEmpty then p
    else match readInt32 p.2 with
      | (x, s) => ({ p.1 with notifyAboutPinned := x }, s)
  | _ => p

/-- The whole reading phase (lines 137-220): the 20 field groups in
order over the stream opened on the blob. -/
def readAll (v : Variables) (blob : List Nat) : Scratch × ByteStream :=
  (List.range' 1 20).foldl decodeStep (initScratch v, ⟨blob, true⟩)

/-- The field assignments of the committing phase of
constructFromSerialized (lines 226-259 and 263-291).  Each field is
assigned from its own scratch value, the enumerations through their
validating switch (an out-of-range value leaves the field at its prior
value); the auto-download sub-state changes only when the sub-blob was
non-empty (line 227).  The assignments are independent, so the
sequential source assignments are given as one record. -/
def commitFields (sc : Scratch) (v : Variables) : Variables where
  selectorTab := match selectorTabFromInt sc.selectorTab with
    | some t => t
    | none => v.selectorTab
  lastSeenWarningSeen := sc.lastSeenWarningSeen == 1
  tabbedSelectorSectionEnabled := sc.tabbedSelectorSectionEnabled == 1
  soundOverrides := sc.soundOverrides
  tabbedSelectorSectionTooltipShown := sc.tabbedSelectorSectionTooltipShown
  floatPlayerColumn := match columnFromInt sc.floatPlayerColumn with
    | some c => c
    | none => v.floatPlayerColumn
  floatPlayerCorner := match rectPartFromInt sc.floatPlayerCorner with
    | some c => c
    | none => v.floatPlayerCorner
  groupStickersSectionHidden := sc.groupStickersSectionHidden
  thirdSectionInfoEnabled := sc.thirdSectionInfoEnabled != 0
  smallDialogsList := sc.smallDialogsList != 0
  dialogsWidthRatio := sc.dialogsWidthRatio
  thirdColumnWidth := sc.thirdColumnWidth
  thirdSectionExtendedBy := sc.thirdSectionExtendedBy
  sendFilesWay := match sendFilesWayFromInt sc.sendFilesWay with
    | some w => w
    | none => v.sendFilesWay
  hadLegacyCallsPeerToPeerNobody := sc.legacyCallsPeerToPeer == 4
  sendSubmitWay := match inputSubmitFromInt sc.sendSubmitWay with
    | some w => w
    | none => v.sendSubmitWay
  supportSwitch := match switchSettingsFromInt sc.supportSwitch with
    | some w => w
    | none => v.supportSwitch
  supportFixChatsOrder := sc.supportFixChatsOrder == 1
  supportTemplatesAutocomplete := sc.supportTemplatesAutocomplete == 1
  supportChatsTimeSlice := sc.supportChatsTimeSlice
  includeMutedCounter := sc.includeMutedCounter == 1
  countUnreadMessages := sc.countUnreadMessages == 1
  exeLaunchWarning := sc.exeLaunchWarning == 1
  autoDownload := if sc.autoDownload.isEmpty then v.autoDownload else sc.autoDownload
  supportAllSearchResults := sc.supportAllSearchResults == 1
  archiveCollapsed := sc.archiveCollapsed == 1
  notifyAboutPinned := sc.notifyAboutPinned == 1

/-- The committing phase of constructFromSerialized (lines 226-291):
the field assignments, then the dependent-field rule (lines 260-262)
that forcibly disables tabbedSelectorSectionEnabled whenever
thirdSectionInfoEnabled was decoded as set.  In the source the rule
runs between the assignment blocks, but the assignments after it do
not touch either flag, so applying it after all assignments is the
same function. -/
def commit (sc : Scratch) (v : Variables) : Variables :=
  let w := commitFields sc v
  if w.thirdSectionInfoEnabled then { w with tabbedSelectorSectionEnabled := false }
  else w

/-- How a decode attempt ends.  The diagnostic log statement (lines
222-223) is emitted exactly in the streamError case; the empty-blob
return (lines 103-105) and the auto-download failure return (lines
226-229) are silent. -/
inductive DecodeStatus
  | success
  | emptyBlob
  | streamError
  | autoDownloadError
deriving DecidableEq

/-- Whether a given outcome logs the bad-data diagnostic. -/
def emitsDiagnostic : DecodeStatus → Bool
  | .streamError => true
  | _ => false

/-- AuthSessionSettings::constructFromSerialized (lines 102-292),
applied to the record v it is invoked on.  The delegated auto-download
decoder is modelled from the spec (its code is outside the analysed
source): it accepts the sub-blob exactly when the validity predicate
adValid does, in which case the decoded sub-state is that blob.  An
empty blob returns at once; a stream failure or a rejected non-empty
auto-download sub-blob returns with the record untouched; otherwise
the scratch values are committed. -/
def constructFromSerialized (adValid : List Nat → Bool) (v : Variables)
    (serialized : List Nat) : Variables × DecodeStatus :=
  if serialized.isEmpty then (v, .emptyBlob)
  else
    match readAll v serialized with
    | (sc, s) =>
      if s.ok = false then (v, .streamError)
      else if ¬sc.autoDownload.isEmpty ∧ adValid sc.autoDownload = false then
        (v, .autoDownloadError)
      else (commit sc v, .success)

/-- The state touched by the section setters: the settings record plus
the session-local tabbedReplacedWithInfo flag. -/
structure SettingsState where
  _variables : Variables
  tabbedReplacedWithInfo : Bool
deriving DecidableEq

/-- AuthSessionSettings::setTabbedReplacedWithInfo (lines 347-352),
without the observable-event side effect. -/
def setTabbedReplacedWithInfo (s : SettingsState) (enabled : Bool) : SettingsState :=
  if s.tabbedReplacedWithInfo != enabled then
    { s with tabbedReplacedWithInfo := enabled }
  else s

/-- AuthSessionSettings::setThirdSectionInfoEnabled(false) as invoked
from the tabbed-selector setter (lines 331-340 with enabled = false):
the guard passes only when the flag was set, the flag is cleared, and
no recursive call happens since enabled is false. -/
def thirdSectionInfoDisable (s : SettingsState) : SettingsState :=
  if s._variables.thirdSectionInfoEnabled = false then s
  else
    setTabbedReplacedWithInfo
      { s with _variables := { s._variables with thirdSectionInfoEnabled := false } }
      false

/-- AuthSessionSettings::setTabbedSelectorSectionEnabled (lines 318-324). -/
def setTabbedSelectorSectionEnabled (s : SettingsState) (enabled : Bool) : SettingsState :=
  let s1 := { s with _variables := { s._variables with tabbedSelectorSectionEnabled := enabled } }
  let s2 := if enabled then thirdSectionInfoDisable s1 else s1
  setTabbedReplacedWithInfo s2 false

/-- AuthSessionSettings::setThirdSectionInfoEnabled (lines 331-340),
without the observable-event side effect.  The nested call to the
tabbed-selector setter passes false, so the recursion is bounded. -/
def setThirdSectionInfoEnabled (s : SettingsState) (enabled : Bool) : SettingsState :=
  if s._variables.thirdSectionInfoEnabled = enabled then s
  else
    let s1 := { s with _variables := { s._variables with thirdSectionInfoEnabled := enabled } }
    let s2 := if enabled then setTabbedSelectorSectionEnabled s1 false else s1
    setTabbedReplacedWithInfo s2 false

/-- The value the width ratio takes after an encode-decode round trip:
the ratio is stored as round(ratio * 1000000) snapped into [0, 1000000]
and divided back on decode. -/
def microQuant (q : ℚ) : ℚ :=
  decodeDialogsWidthRatio (snapI (qRoundQ (q * 1000000)) 0 1000000)

theorem snapI_ratio_range (x : Int) :
    0 ≤ snapI x 0 1000000 ∧ snapI x 0 1000000 ≤ 1000000 := by
  unfold snapI; omega

theorem microQuant_eq (q : ℚ) :
    microQuant q = ((snapI (qRoundQ (q * 1000000)) 0 1000000 : Int) : ℚ) / 1000000 := by
  obtain ⟨h1, h2⟩ := snapI_ratio_range (qRoundQ (q * 1000000))
  set m := snapI (qRoundQ (q * 1000000)) 0 1000000 with hm
  have q1 : (0 : ℚ) ≤ (m : ℚ) / 1000000 := by
    apply div_nonneg _ (by norm_num)
    exact_mod_cast h1
  have q2 : (m : ℚ) / 1000000 ≤ 1 := by
    rw [div_le_one (by norm_num)]
    exact_mod_cast h2
  unfold microQuant decodeDialogsWidthRatio snapQ
  rw [← hm, max_eq_left q1, min_eq_left q2]

@[simp] theorem boolToInt_beq_one (b : Bool) : (boolToInt b == 1) = b := by
  cases b <;> rfl

@[simp] theorem boolToInt_bne_zero (b : Bool) : (boolToInt b != 0) = b := by
  cases b <;> rfl

theorem boolToInt_range (b : Bool) :
    -2147483648 ≤ boolToInt b ∧ boolToInt b < 2147483648 := by
  cases b <;> exact ⟨by decide, by decide⟩

theorem selectorTabToInt_range (t : SelectorTab) :
    -2147483648 ≤ selectorTabToInt t ∧ selectorTabToInt t < 2147483648 := by
  cases t <;> exact ⟨by decide, by decide⟩

theorem columnToInt_range (c : Column) :
    -2147483648 ≤ columnToInt c ∧ columnToInt c < 2147483648 := by
  cases c <;> exact ⟨by decide, by decide⟩

theorem rectPartToInt_range (c : RectPart) :
    -2147483648 ≤ rectPartToInt c ∧ rectPartToInt c < 2147483648 := by
  cases c <;> exact ⟨by decide, by decide⟩

theorem sendFilesWayToInt_range (w : SendFilesWay) :
    -2147483648 ≤ sendFilesWayToInt w ∧ sendFilesWayToInt w < 2147483648 := by
  cases w <;> exact ⟨by decide, by decide⟩

theorem inputSubmitToInt_range (w : InputSubmitSettings) :
    -2147483648 ≤ inputSubmitToInt w ∧ inputSubmitToInt w < 2147483648 := by
  cases w <;> exact ⟨by decide, by decide⟩

theorem switchSettingsToInt_range (w : SwitchSettings) :
    -2147483648 ≤ switchSettingsToInt w ∧ switchSettingsToInt w < 2147483648 := by
  cases w <;> exact ⟨by decide, by decide⟩

theorem loopIterations_natCast (n : Nat) (h : n < 2147483648) :
    loopIterations (n : Int) = n := by
  unfold loopIterations; omega

@[simp] theorem isEmpty_writeInt32_append (v : Int) (rest : List Nat) :
    ((writeInt32 v ++ rest).isEmpty) = false := by
  simp [writeInt32, writeUInt32]

@[simp] theorem isEmpty_writeQByteArray_append (b : List Nat) (rest : List Nat) :
    ((writeQByteArray b ++ rest).isEmpty) = false := by
  simp [writeQByteArray, writeUInt32]

/-- The effect on the scratch state of reading field group i of a
record encoded by serialize, when the group is present in full. -/
def updStep (r : Variables) (sc : Scratch) : Nat → Scratch
  | 1 => { sc with selectorTab := selectorTabToInt r.selectorTab }
  | 2 => { sc with lastSeenWarningSeen := boolToInt r.lastSeenWarningSeen }
  | 3 => { sc with tabbedSelectorSectionEnabled := boolToInt r.tabbedSelectorSectionEnabled }
  | 4 => { sc with soundOverrides := insertAll sc.soundOverrides r.soundOverrides }
  | 5 => { sc with tabbedSelectorSectionTooltipShown := r.tabbedSelectorSectionTooltipShown }
  | 6 => { sc with
      floatPlayerColumn := columnToInt r.floatPlayerColumn
      floatPlayerCorner := rectPartToInt r.floatPlayerCorner }
  | 7 => { sc with
      groupStickersSectionHidden :=
        insertAllIds sc.groupStickersSectionHidden r.groupStickersSectionHidden }
  | 8 => { sc with
      thirdSectionInfoEnabled := boolToInt r.thirdSectionInfoEnabled
      smallDialogsList := boolToInt r.smallDialogsList }
  | 9 => { sc with
      dialogsWidthRatio := microQuant r.dialogsWidthRatio
      thirdColumnWidth := r.thirdColumnWidth
      thirdSectionExtendedBy := r.thirdSectionExtendedBy }
  | 10 => { sc with sendFilesWay := sendFilesWayToInt r.sendFilesWay }
  | 11 => { sc with legacyCallsPeerToPeer := 0 }
  | 12 => { sc with
      sendSubmitWay := inputSubmitToInt r.sendSubmitWay
      supportSwitch := switchSettingsToInt r.supportSwitch
      supportFixChatsOrder := boolToInt r.supportFixChatsOrder }
  | 13 => { sc with supportTemplatesAutocomplete := boolToInt r.supportTemplatesAutocomplete }
  | 14 => { sc with supportChatsTimeSlice := r.supportChatsTimeSlice }
  | 15 => { sc with
      includeMutedCounter := boolToInt r.includeMutedCounter
      countUnreadMessages := boolToInt r.countUnreadMessages }
  | 16 => { sc with exeLaunchWarning := boolToInt r.exeLaunchWarning }
  | 17 => { sc with autoDownload := r.autoDownload }
  | 18 => { sc with supportAllSearchResults := boolToInt r.supportAllSearchResults }
  | 19 => { sc with archiveCollapsed := boolToInt r.archiveCollapsed }
  | 20 => { sc with notifyAboutPinned := boolToInt r.notifyAboutPinned }
  | _ => sc

theorem decodeStep_group (r : Variables) (hr : ValidRecord r) :
    ∀ i, 1 ≤ i → i ≤ 20 → ∀ (sc : Scratch) (rest : List Nat),
    decodeStep (sc, ⟨groupBytes r i ++ rest, true⟩) i = (updStep r sc i, ⟨rest, true⟩) := by
  obtain ⟨⟨hso1, hso2, hso3, hgs1, hgs2, hgs3, ht1, ht2, hw1, hw2, he1, he2,
    hts1, hts2, had⟩, hexcl, hq1, hq2⟩ := hr
  intro i hi1 hi2 sc rest
  interval_cases i
  · simp only [decodeStep, groupBytes, updStep]
    rw [readInt32_append _ _ (selectorTabToInt_range r.selectorTab).1
      (selectorTabToInt_range r.selectorTab).2]
  · simp only [decodeStep, groupBytes, updStep]
    rw [readInt32_append _ _ (boolToInt_range r.lastSeenWarningSeen).1
      (boolToInt_range r.lastSeenWarningSeen).2]
  · simp only [decodeStep, groupBytes, updStep, isEmpty_writeInt32_append,
      Bool.false_eq_true, ite_false]
    rw [readInt32_append _ _ (boolToInt_range r.tabbedSelectorSectionEnabled).1
      (boolToInt_range r.tabbedSelectorSectionEnabled).2]
  · simp only [decodeStep, groupBytes, updStep, List.append_assoc,
      isEmpty_writeInt32_append, Bool.false_eq_true, ite_false]
    rw [readInt32_append _ _ (by omega) (by omega)]
    simp only [loopIterations_natCast _ hso3, ite_true]
    rw [readSoundPairs_encode _ _ _ hso2]
  · simp only [decodeStep, groupBytes, updStep, isEmpty_writeInt32_append,
      Bool.false_eq_true, ite_false]
    rw [readInt32_append _ _ ht1 ht2]
  · simp only [decodeStep, groupBytes, updStep, List.append_assoc,
      isEmpty_writeInt32_append, Bool.false_eq_true, ite_false]
    rw [readInt32_append _ _ (columnToInt_range r.floatPlayerColumn).1
      (columnToInt_range r.floatPlayerColumn).2]
    rw [readInt32_append _ _ (rectPartToInt_range r.floatPlayerCorner).1
      (rectPartToInt_range r.floatPlayerCorner).2]
  · simp only [decodeStep, groupBytes, updStep, List.append_assoc,
      isEmpty_writeInt32_append, Bool.false_eq_true, ite_false]
    rw [readInt32_append _ _ (by omega) (by omega)]
    simp only [loopIterations_natCast _ hgs3, ite_true]
    rw [readHiddenIds_encode _ _ _ hgs2]
  · simp only [decodeStep, groupBytes, updStep, List.append_assoc,
      isEmpty_writeInt32_append, Bool.false_eq_true, ite_false]
    rw [readInt32_append _ _ (boolToInt_range r.thirdSectionInfoEnabled).1
      (boolToInt_range r.thirdSectionInfoEnabled).2]
    rw [readInt32_append _ _ (boolToInt_range r.smallDialogsList).1
      (boolToInt_range r.smallDialogsList).2]
  · simp only [decodeStep, groupBytes, updStep, List.append_assoc,
      isEmpty_writeInt32_append, Bool.false_eq_true, ite_false]
    obtain ⟨hs1, hs2⟩ := snapI_ratio_range (qRoundQ (r.dialogsWidthRatio * 1000000))
    rw [readInt32_append _ _ (by omega) (by omega)]
    rw [readInt32_append _ _ hw1 hw2]
    rw [readInt32_append _ _ he1 he2]
    rfl
  · simp only [decodeStep, groupBytes, updStep, isEmpty_writeInt32_append,
      Bool.false_eq_true, ite_false]
    rw [readInt32_append _ _ (sendFilesWayToInt_range r.sendFilesWay).1
      (sendFilesWayToInt_range r.sendFilesWay).2]
  · simp only [decodeStep, groupBytes, updStep, isEmpty_writeInt32_append,
      Bool.false_eq_true, ite_false]
    rw [readInt32_append _ _ (by decide) (by decide)]
  · simp only [decodeStep, groupBytes, updStep, List.append_assoc,
      isEmpty_writeInt32_append, Bool.false_eq_true, ite_false]
    rw [readInt32_append _ _ (inputSubmitToInt_range r.sendSubmitWay).1
      (inputSubmitToInt_range r.sendSubmitWay).2]
    rw [readInt32_append _ _ (switchSettingsToInt_range r.supportSwitch).1
      (switchSettingsToInt_range r.supportSwitch).2]
    rw [readInt32_append _ _ (boolToInt_range r.supportFixChatsOrder).1
      (boolToInt_range r.supportFixChatsOrder).2]
  · simp only [decodeStep, groupBytes, updStep, isEmpty_writeInt32_append,
      Bool.false_eq_true, ite_false]
    rw [readInt32_append _ _ (boolToInt_range r.supportTemplatesAutocomplete).1
      (boolToInt_range r.supportTemplatesAutocomplete).2]
  · simp only [decodeStep, groupBytes, updStep, isEmpty_writeInt32_append,
      Bool.false_eq_true, ite_false]
    rw [readInt32_append _ _ hts1 hts2]
  · simp only [decodeStep, groupBytes, updStep, List.append_assoc,
      isEmpty_writeInt32_append, Bool.false_eq_true, ite_false]
    rw [readInt32_append _ _ (boolToInt_range r.includeMutedCounter).1
      (boolToInt_range r.includeMutedCounter).2]
    rw [readInt32_append _ _ (boolToInt_range r.countUnreadMessages).1
      (boolToInt_range r.countUnreadMessages).2]
  · simp only [decodeStep, groupBytes, updStep, isEmpty_writeInt32_append,
      Bool.false_eq_true, ite_false]
    rw [readInt32_append _ _ (boolToInt_range r.exeLaunchWarning).1
      (boolToInt_range r.exeLaunchWarning).2]
  · simp only [decodeStep, groupBytes, updStep, isEmpty_writeQByteArray_append,
      Bool.false_eq_true, ite_false]
    rw [readQByteArray_append _ _ had]
  · simp only [decodeStep, groupBytes, updStep, isEmpty_writeInt32_append,
      Bool.false_eq_true, ite_false]
    rw [readInt32_append _ _ (boolToInt_range r.supportAllSearchResults).1
      (boolToInt_range r.supportAllSearchResults).2]
  · simp only [decodeStep, groupBytes, updStep, isEmpty_writeInt32_append,
      Bool.false_eq_true, ite_false]
    rw [readInt32_append _ _ (boolToInt_range r.archiveCollapsed).1
      (boolToInt_range r.archiveCollapsed).2]
  · simp only [decodeStep, groupBytes, updStep, isEmpty_writeInt32_append,
      Bool.false_eq_true, ite_false]
    rw [readInt32_append _ _ (boolToInt_range r.notifyAboutPinned).1
      (boolToInt_range r.notifyAboutPinned).2]

theorem decodeStep_atEnd (i : Nat) (h3 : 3 ≤ i) (h20 : i ≤ 20) (sc : Scratch) :
    decodeStep (sc, ⟨[], true⟩) i = (sc, ⟨[], true⟩) := by
  interval_cases i <;> rfl

theorem foldl_decodeStep_groups (r : Variables) (hr : ValidRecord r) :
    ∀ (l : List Nat), (∀ i ∈ l, 1 ≤ i ∧ i ≤ 20) → ∀ (sc : Scratch) (rest : List Nat),
    l.foldl decodeStep (sc, ⟨concatGroups r l ++ rest, true⟩)
      = (l.foldl (updStep r) sc, ⟨rest, true⟩) := by
  intro l
  induction l with
  | nil => intro _ sc rest; simp [concatGroups]
  | cons i tl ih =>
    intro hmem sc rest
    obtain ⟨hi1, hi2⟩ := hmem i (by simp)
    rw [concatGroups_cons, List.append_assoc, List.foldl_cons,
      decodeStep_group r hr i hi1 hi2, List.foldl_cons]
    exact ih (fun j hj => hmem j (by simp [hj])) _ rest

theorem foldl_decodeStep_empty :
    ∀ (l : List Nat), (∀ i ∈ l, 3 ≤ i ∧ i ≤ 20) → ∀ (sc : Scratch),
    l.foldl decodeStep (sc, ⟨[], true⟩) = (sc, ⟨[], true⟩) := by
  intro l
  induction l with
  | nil => intro _ sc; rfl
  | cons i tl ih =>
    intro hmem sc
    obtain ⟨hi1, hi2⟩ := hmem i (by simp)
    rw [List.foldl_cons, decodeStep_atEnd i hi1 hi2]
    exact ih (fun j hj => hmem j (by simp [hj])) sc

theorem serializeUpTo_isEmpty (r : Variables) (k : Nat) (h : 1 ≤ k) :
    (serializeUpTo r k).isEmpty = false := by
  obtain ⟨k1, rfl⟩ : ∃ k1, k = k1 + 1 := ⟨k - 1, by omega⟩
  rw [serializeUpTo, List.range'_succ, concatGroups_cons]
  show (groupBytes r 1 ++ _).isEmpty = false
  simp only [groupBytes]
  exact isEmpty_writeInt32_append _ _

theorem readAll_upTo (r : Variables) (hr : ValidRecord r) (k : Nat)
    (h2 : 2 ≤ k) (h20 : k ≤ 20) (v : Variables) :
    readAll v (serializeUpTo r k)
      = ((List.range' 1 k).foldl (updStep r) (initScratch v), ⟨[], true⟩) := by
  have hsplit : List.range' 1 k ++ List.range' (1 + k) (20 - k) = List.range' 1 20 := by
    have h := List.range'_append 1 k (20 - k) 1
    rw [one_mul] at h
    rw [h]
    congr 1
    omega
  have hblob : (⟨serializeUpTo r k, true⟩ : ByteStream)
      = ⟨concatGroups r (List.range' 1 k) ++ [], true⟩ := by
    simp [serializeUpTo]
  rw [readAll, ← hsplit, List.foldl_append, hblob,
    foldl_decodeStep_groups r hr _ (fun i hi => by
      have := List.mem_range'_1.mp hi; omega)]
  exact foldl_decodeStep_empty _ (fun i hi => by
    have := List.mem_range'_1.mp hi; omega) _

/-- Closed form of the scratch state after reading the first k field
groups of a record r encoded by serialize, starting from a decode of
record v: groups up to k carry the encoded values of r, later scratch
values keep their initializers. -/
def scratchUpTo (r : Variables) (k : Nat) (v : Variables) : Scratch where
  selectorTab := if 1 ≤ k then selectorTabToInt r.selectorTab else selectorTabToInt .Emoji
  lastSeenWarningSeen := if 2 ≤ k then boolToInt r.lastSeenWarningSeen else 0
  tabbedSelectorSectionEnabled :=
    if 3 ≤ k then boolToInt r.tabbedSelectorSectionEnabled else 1
  soundOverrides := if 4 ≤ k then insertAll [] r.soundOverrides else []
  tabbedSelectorSectionTooltipShown :=
    if 5 ≤ k then r.tabbedSelectorSectionTooltipShown else 0
  floatPlayerColumn := if 6 ≤ k then columnToInt r.floatPlayerColumn else columnToInt .Second
  floatPlayerCorner := if 6 ≤ k then rectPartToInt r.floatPlayerCorner else rectPartToInt .TopRight
  groupStickersSectionHidden :=
    if 7 ≤ k then insertAllIds [] r.groupStickersSectionHidden else []
  thirdSectionInfoEnabled := if 8 ≤ k then boolToInt r.thirdSectionInfoEnabled else 0
  smallDialogsList := if 8 ≤ k then boolToInt r.smallDialogsList else 0
  dialogsWidthRatio := if 9 ≤ k then microQuant r.dialogsWidthRatio else v.dialogsWidthRatio
  thirdColumnWidth := if 9 ≤ k then r.thirdColumnWidth else v.thirdColumnWidth
  thirdSectionExtendedBy := if 9 ≤ k then r.thirdSectionExtendedBy else v.thirdSectionExtendedBy
  sendFilesWay := if 10 ≤ k then sendFilesWayToInt r.sendFilesWay else sendFilesWayToInt v.sendFilesWay
  legacyCallsPeerToPeer := 0
  sendSubmitWay := if 12 ≤ k then inputSubmitToInt r.sendSubmitWay else inputSubmitToInt v.sendSubmitWay
  supportSwitch := if 12 ≤ k then switchSettingsToInt r.supportSwitch else switchSettingsToInt v.supportSwitch
  supportFixChatsOrder := if 12 ≤ k then boolToInt r.supportFixChatsOrder else boolToInt v.supportFixChatsOrder
  supportTemplatesAutocomplete :=
    if 13 ≤ k then boolToInt r.supportTemplatesAutocomplete else boolToInt v.supportTemplatesAutocomplete
  supportChatsTimeSlice := if 14 ≤ k then r.supportChatsTimeSlice else v.supportChatsTimeSlice
  includeMutedCounter := if 15 ≤ k then boolToInt r.includeMutedCounter else boolToInt v.includeMutedCounter
  countUnreadMessages := if 15 ≤ k then boolToInt r.countUnreadMessages else boolToInt v.countUnreadMessages
  exeLaunchWarning := if 16 ≤ k then boolToInt r.exeLaunchWarning else boolToInt v.exeLaunchWarning
  autoDownload := if 17 ≤ k then r.autoDownload else []
  supportAllSearchResults := if 18 ≤ k then boolToInt r.supportAllSearchResults else boolToInt v.supportAllSearchResults
  archiveCollapsed := if 19 ≤ k then boolToInt r.archiveCollapsed else boolToInt v.archiveCollapsed
  notifyAboutPinned := if 20 ≤ k then boolToInt r.notifyAboutPinned else boolToInt v.notifyAboutPinned

theorem foldl_updStep (r v : Variables) :
    ∀ k, k ≤ 20 → (List.range' 1 k).foldl (updStep r) (initScratch v) = scratchUpTo r k v := by
  intro k
  induction k with
  | zero => intro _; rfl
  | succ k ih =>
    intro hk
    have hconcat : List.range' 1 (k + 1) = List.range' 1 k ++ [1 + k] := by
      have h := List.range'_append 1 k 1 1
      rw [one_mul] at h
      rw [show k + 1 = 1 + k from by omega, ← h]
      rfl
    rw [hconcat, List.foldl_append, ih (by omega), List.foldl_cons, List.foldl_nil]
    have hk19 : k ≤ 19 := by omega
    interval_cases k <;> simp [updStep, scratchUpTo]

/-- The record produced by decoding, into a default-constructed
record, the blob of a valid record r truncated after field group k:
the first k groups carry the values of r (the width ratio as its
micro-unit quantization), the dependent-field rule applies, and every
later field keeps its compile-time default. -/
def truncExpected (r : Variables) (k : Nat) : Variables where
  selectorTab := if 1 ≤ k then r.selectorTab else defaultVariables.selectorTab
  lastSeenWarningSeen := if 2 ≤ k then r.lastSeenWarningSeen else defaultVariables.lastSeenWarningSeen
  tabbedSelectorSectionEnabled :=
    if (if 8 ≤ k then r.thirdSectionInfoEnabled else defaultVariables.thirdSectionInfoEnabled)
    then false
    else if 3 ≤ k then r.tabbedSelectorSectionEnabled
    else defaultVariables.tabbedSelectorSectionEnabled
  soundOverrides := if 4 ≤ k then r.soundOverrides else defaultVariables.soundOverrides
  tabbedSelectorSectionTooltipShown :=
    if 5 ≤ k then r.tabbedSelectorSectionTooltipShown
    else defaultVariables.tabbedSelectorSectionTooltipShown
  floatPlayerColumn := if 6 ≤ k then r.floatPlayerColumn else defaultVariables.floatPlayerColumn
  floatPlayerCorner := if 6 ≤ k then r.floatPlayerCorner else defaultVariables.floatPlayerCorner
  groupStickersSectionHidden :=
    if 7 ≤ k then r.groupStickersSectionHidden else defaultVariables.groupStickersSectionHidden
  thirdSectionInfoEnabled :=
    if 8 ≤ k then r.thirdSectionInfoEnabled else defaultVariables.thirdSectionInfoEnabled
  smallDialogsList := if 8 ≤ k then r.smallDialogsList else defaultVariables.smallDialogsList
  dialogsWidthRatio :=
    if 9 ≤ k then microQuant r.dialogsWidthRatio else defaultVariables.dialogsWidthRatio
  thirdColumnWidth := if 9 ≤ k then r.thirdColumnWidth else defaultVariables.thirdColumnWidth
  thirdSectionExtendedBy :=
    if 9 ≤ k then r.thirdSectionExtendedBy else defaultVariables.thirdSectionExtendedBy
  sendFilesWay := if 10 ≤ k then r.sendFilesWay else defaultVariables.sendFilesWay
  hadLegacyCallsPeerToPeerNobody := false
  sendSubmitWay := if 12 ≤ k then r.sendSubmitWay else defaultVariables.sendSubmitWay
  supportSwitch := if 12 ≤ k then r.supportSwitch else defaultVariables.supportSwitch
  supportFixChatsOrder :=
    if 12 ≤ k then r.supportFixChatsOrder else defaultVariables.supportFixChatsOrder
  supportTemplatesAutocomplete :=
    if 13 ≤ k then r.supportTemplatesAutocomplete else defaultVariables.supportTemplatesAutocomplete
  supportChatsTimeSlice :=
    if 14 ≤ k then r.supportChatsTimeSlice else defaultVariables.supportChatsTimeSlice
  includeMutedCounter :=
    if 15 ≤ k then r.includeMutedCounter else defaultVariables.includeMutedCounter
  countUnreadMessages :=
    if 15 ≤ k then r.countUnreadMessages else defaultVariables.countUnreadMessages
  exeLaunchWarning := if 16 ≤ k then r.exeLaunchWarning else defaultVariables.exeLaunchWarning
  autoDownload := if 17 ≤ k then r.autoDownload else defaultVariables.autoDownload
  supportAllSearchResults :=
    if 18 ≤ k then r.supportAllSearchResults else defaultVariables.supportAllSearchResults
  archiveCollapsed := if 19 ≤ k then r.archiveCollapsed else defaultVariables.archiveCollapsed
  notifyAboutPinned := if 20 ≤ k then r.notifyAboutPinned else defaultVariables.notifyAboutPinned

theorem commit_scratchUpTo (r : Variables)
    (hso1 : List.Pairwise (fun p q => listLt p.1 q.1 = true) r.soundOverrides)
    (hgs1 : List.Pairwise (· < ·) r.groupStickersSectionHidden)
    (k : Nat) (h2 : 2 ≤ k) (h20 : k ≤ 20) :
    commit (scratchUpTo r k defaultVariables) defaultVariables = truncExpected r k := by
  have hso : insertAll [] r.soundOverrides = r.soundOverrides := by
    simpa using insertAll_sorted r.soundOverrides [] hso1 (by simp)
  have hgs : insertAllIds [] r.groupStickersSectionHidden = r.groupStickersSectionHidden := by
    simpa using insertAllIds_sorted r.groupStickersSectionHidden [] hgs1 (by simp)
  interval_cases k
  · simp [commit, commitFields, scratchUpTo, truncExpected, defaultVariables, hso, hgs]
  · simp [commit, commitFields, scratchUpTo, truncExpected, defaultVariables, hso, hgs]
  · simp [commit, commitFields, scratchUpTo, truncExpected, defaultVariables, hso, hgs]
  · simp [commit, commitFields, scratchUpTo, truncExpected, defaultVariables, hso, hgs]
  · simp [commit, commitFields, scratchUpTo, truncExpected, defaultVariables, hso, hgs]
  · simp [commit, commitFields, scratchUpTo, truncExpected, defaultVariables, hso, hgs]
  · cases h3 : r.thirdSectionInfoEnabled <;>
      simp [commit, commitFields, scratchUpTo, truncExpected, defaultVariables, hso, hgs, h3]
  · cases h3 : r.thirdSectionInfoEnabled <;>
      simp [commit, commitFields, scratchUpTo, truncExpected, defaultVariables, hso, hgs, h3]
  · cases h3 : r.thirdSectionInfoEnabled <;>
      simp [commit, commitFields, scratchUpTo, truncExpected, defaultVariables, hso, hgs, h3]
  · cases h3 : r.thirdSectionInfoEnabled <;>
      simp [commit, commitFields, scratchUpTo, truncExpected, defaultVariables, hso, hgs, h3]
  · cases h3 : r.thirdSectionInfoEnabled <;>
      simp [commit, commitFields, scratchUpTo, truncExpected, defaultVariables, hso, hgs, h3]
  · cases h3 : r.thirdSectionInfoEnabled <;>
      simp [commit, commitFields, scratchUpTo, truncExpected, defaultVariables, hso, hgs, h3]
  · cases h3 : r.thirdSectionInfoEnabled <;>
      simp [commit, commitFields, scratchUpTo, truncExpected, defaultVariables, hso, hgs, h3]
  · cases h3 : r.thirdSectionInfoEnabled <;>
      simp [commit, commitFields, scratchUpTo, truncExpected, defaultVariables, hso, hgs, h3]
  · cases h3 : r.thirdSectionInfoEnabled <;>
      simp [commit, commitFields, scratchUpTo, truncExpected, defaultVariables, hso, hgs, h3]
  · cases h3 : r.thirdSectionInfoEnabled <;> cases hadl : r.autoDownload <;>
      simp [commit, commitFields, scratchUpTo, truncExpected, defaultVariables, hso, hgs, h3, hadl]
  · cases h3 : r.thirdSectionInfoEnabled <;> cases hadl : r.autoDownload <;>
      simp [commit, commitFields, scratchUpTo, truncExpected, defaultVariables, hso, hgs, h3, hadl]
  · cases h3 : r.thirdSectionInfoEnabled <;> cases hadl : r.autoDownload <;>
      simp [commit, commitFields, scratchUpTo, truncExpected, defaultVariables, hso, hgs, h3, hadl]
  · cases h3 : r.thirdSectionInfoEnabled <;> cases hadl : r.autoDownload <;>
      simp [commit, commitFields, scratchUpTo, truncExpected, defaultVariables, hso, hgs, h3, hadl]

/-- Decoding, into a default-constructed record, the blob of a valid
record truncated after field group k (2 ≤ k ≤ 20) succeeds and yields
exactly the truncation-expected record, provided a non-empty encoded
auto-download sub-blob (present from group 17 on) is accepted by the
delegated decoder. -/
theorem decode_serializeUpTo (adValid : List Nat → Bool) (r : Variables)
    (hr : ValidRecord r) (k : Nat) (h2 : 2 ≤ k) (h20 : k ≤ 20)
    (had : 17 ≤ k → r.autoDownload = [] ∨ adValid r.autoDownload = true) :
    constructFromSerialized adValid defaultVariables (serializeUpTo r k)
      = (truncExpected r k, .success) := by
  have hread := readAll_upTo r hr k h2 h20 defaultVariables
  obtain ⟨⟨hso1, hso2, hso3, hgs1, hgs2, hgs3, ht1, ht2, hw1, hw2, he1, he2,
    hts1, hts2, hadl⟩, hexcl, hq1, hq2⟩ := hr
  rw [foldl_updStep r defaultVariables k h20] at hread
  have hne := serializeUpTo_isEmpty r k (by omega)
  have hauto : (scratchUpTo r k defaultVariables).autoDownload
      = if 17 ≤ k then r.autoDownload else [] := rfl
  have hcond : ¬(¬((scratchUpTo r k defaultVariables).autoDownload.isEmpty = true) ∧
      adValid (scratchUpTo r k defaultVariables).autoDownload = false) := by
    rw [hauto]
    by_cases h17 : 17 ≤ k
    · rcases had h17 with h | h
      · simp [h17, h]
      · simp [h17, h]
    · simp [h17]
  rw [constructFromSerialized, if_neg (by simp [hne]), hread]
  simp only [Bool.true_eq_false, ite_false, if_neg hcond]
  rw [commit_scratchUpTo r hso1 hgs1 k h2 h20]

/-- At k = 20 (no truncation) the expected record is the encoded
record itself, except that the migration flag is cleared and the width
ratio is quantized. -/
theorem truncExpected_twenty (r : Variables)
    (hexcl : ¬(r.tabbedSelectorSectionEnabled = true ∧ r.thirdSectionInfoEnabled = true)) :
    truncExpected r 20 = { r with
      hadLegacyCallsPeerToPeerNobody := false
      dialogsWidthRatio := microQuant r.dialogsWidthRatio } := by
  cases h3 : r.thirdSectionInfoEnabled
  · simp [truncExpected, h3]
  · have htab : r.tabbedSelectorSectionEnabled = false := by
      cases htab2 : r.tabbedSelectorSectionEnabled
      · rfl
      · exact absurd ⟨htab2, h3⟩ hexcl
    simp [truncExpected, h3, htab]

/-- The clamp of the decoded ratio is the identity on raw values
already in [0, 1000000]. -/
theorem decodeDialogsWidthRatio_of_mem (v : Int) (h1 : 0 ≤ v) (h2 : v ≤ 1000000) :
    decodeDialogsWidthRatio v = (v : ℚ) / 1000000 := by
  unfold decodeDialogsWidthRatio snapQ
  have q1 : (0 : ℚ) ≤ (v : ℚ) / 1000000 := div_nonneg (by exact_mod_cast h1) (by norm_num)
  have q2 : (v : ℚ) / 1000000 ≤ 1 := by
    rw [div_le_one (by norm_num)]
    exact_mod_cast h2
  rw [max_eq_left q1, min_eq_left q2]

/-- Any decode attempt on a non-empty blob whose reading phase ends
with a failed stream returns the streamError outcome with the record
untouched (lines 221-225: the status check precedes every field
assignment). -/
theorem decode_streamError (adValid : List Nat → Bool) (v : Variables)
    (blob : List Nat) (h1 : blob ≠ []) (h2 : (readAll v blob).2.ok = false) :
    constructFromSerialized adValid v blob = (v, .streamError) := by
  rcases hra : readAll v blob with ⟨sc, s⟩
  simp only [hra] at h2
  rw [constructFromSerialized, if_neg (by simp [h1])]
  simp only [hra]
  rw [if_pos h2]

/-- Any decode attempt on a non-empty blob whose reading phase
succeeds but leaves a non-empty auto-download sub-blob rejected by the
delegated decoder returns the autoDownloadError outcome with the
record untouched (lines 226-229). -/
theorem decode_autoDownloadError (adValid : List Nat → Bool) (v : Variables)
    (blob : List Nat) (sc : Scratch) (s : ByteStream) (h1 : blob ≠ [])
    (hra : readAll v blob = (sc, s)) (hok : s.ok = true)
    (hne : sc.autoDownload ≠ []) (hrej : adValid sc.autoDownload = false) :
    constructFromSerialized adValid v blob = (v, .autoDownloadError) := by
  rw [constructFromSerialized, if_neg (by simp [h1])]
  simp only [hra]
  rw [if_neg (by simp [hok]), if_pos ⟨by simp [hne], hrej⟩]

/-- The dependent-field rule at the end of commit: whenever the
committed record has the alternate-info flag set, the tabbed-selector
flag is false. -/
theorem commit_third_tabbed (sc : Scratch) (v : Variables) :
    (commit sc v).thirdSectionInfoEnabled = true →
    (commit sc v).tabbedSelectorSectionEnabled = false := by
  intro h
  by_cases hw : (commitFields sc v).thirdSectionInfoEnabled = true
  · simp [commit, hw]
  · rw [commit] at h
    simp only [if_neg hw] at h
    exact absurd h hw

theorem commit_selectorTab (sc : Scratch) (v : Variables) :
    (commit sc v).selectorTab = match selectorTabFromInt sc.selectorTab with
      | some t => t
      | none => v.selectorTab := by
  rw [commit]
  split
  · rfl
  · rfl

/-- Reading field group 1 stores the raw selector-tab integer in the
scratch state, whatever its value. -/
theorem decodeStep_one (sc : Scratch) (rest : List Nat) (t : Int)
    (h1 : -2147483648 ≤ t) (h2 : t < 2147483648) :
    decodeStep (sc, ⟨writeInt32 t ++ rest, true⟩) 1
      = ({ sc with selectorTab := t }, ⟨rest, true⟩) := by
  simp only [decodeStep]
  rw [readInt32_append _ _ h1 h2]

/-- Every field group after the first neither reads nor writes the
selector-tab scratch value, so its reading commutes with overwriting
that value. -/
theorem decodeStep_selectorTab_comm (i : Nat) (h2 : 2 ≤ i) (h20 : i ≤ 20)
    (sc : Scratch) (s : ByteStream) (t : Int) :
    decodeStep ({ sc with selectorTab := t }, s) i
      = ({ (decodeStep (sc, s) i).1 with selectorTab := t }, (decodeStep (sc, s) i).2) := by
  interval_cases i <;> dsimp only [decodeStep] <;> (repeat' split) <;> rfl

theorem foldl_selectorTab_comm :
    ∀ (l : List Nat), (∀ i ∈ l, 2 ≤ i ∧ i ≤ 20) → ∀ (sc : Scratch) (s : ByteStream) (t : Int),
    l.foldl decodeStep ({ sc with selectorTab := t }, s)
      = ({ (l.foldl decodeStep (sc, s)).1 with selectorTab := t },
         (l.foldl decodeStep (sc, s)).2) := by
  intro l
  induction l with
  | nil => intro _ sc s t; rfl
  | cons i tl ih =>
    intro hmem sc s t
    obtain ⟨hi1, hi2⟩ := hmem i (by simp)
    rw [List.foldl_cons, decodeStep_selectorTab_comm i hi1 hi2, List.foldl_cons]
    rcases hd : decodeStep (sc, s) i with ⟨sc1, s1⟩
    exact ih (fun j hj => hmem j (by simp [hj])) sc1 s1 t

/-- The reading phase on a blob whose first four bytes encode the raw
tag t: the scratch state is the one obtained for raw tag 0 with the
selector-tab slot replaced by t, and the stream outcome is the same. -/
theorem readAll_selectorTab (v : Variables) (t : Int) (rest : List Nat)
    (h1 : -2147483648 ≤ t) (h2 : t < 2147483648) :
    readAll v (writeInt32 t ++ rest)
      = ({ (readAll v (writeInt32 0 ++ rest)).1 with selectorTab := t },
         (readAll v (writeInt32 0 ++ rest)).2) := by
  have hmem : ∀ i ∈ List.range' 2 19, 2 ≤ i ∧ i ≤ 20 := by
    intro i hi
    have := List.mem_range'_1.mp hi
    omega
  have hrange : List.range' 1 20 = 1 :: List.range' 2 19 := rfl
  rw [readAll, readAll, hrange, List.foldl_cons, List.foldl_cons,
    decodeStep_one _ _ _ h1 h2, decodeStep_one _ _ 0 (by decide) (by decide),
    foldl_selectorTab_comm _ hmem]
  have hinit : ({ initScratch v with selectorTab := 0 }) = initScratch v := rfl
  rw [hinit]

/-- One invocation of a section setter. -/
inductive SetterCall
  | tabbed (enabled : Bool)
  | third (enabled : Bool)
  | replaced (enabled : Bool)
deriving DecidableEq

def applySetterCall (s : SettingsState) : SetterCall → SettingsState
  | .tabbed enabled => setTabbedSelectorSectionEnabled s enabled
  | .third enabled => setThirdSectionInfoEnabled s enabled
  | .replaced enabled => setTabbedReplacedWithInfo s enabled

/-- The two panel flags are not both enabled. -/
def ExclusivePanels (s : SettingsState) : Prop :=
  ¬(s._variables.tabbedSelectorSectionEnabled = true ∧
    s._variables.thirdSectionInfoEnabled = true)

theorem setTabbedReplaced_variables (s : SettingsState) (b : Bool) :
    (setTabbedReplacedWithInfo s b)._variables = s._variables := by
  unfold setTabbedReplacedWithInfo
  split <;> rfl

theorem setTabbed_true_third (s : SettingsState) :
    (setTabbedSelectorSectionEnabled s true)._variables.thirdSectionInfoEnabled = false := by
  cases h3 : s._variables.thirdSectionInfoEnabled <;>
    simp [setTabbedSelectorSectionEnabled, thirdSectionInfoDisable,
      setTabbedReplaced_variables, h3]

theorem setTabbed_false_tabbed (s : SettingsState) :
    (setTabbedSelectorSectionEnabled s false)._variables.tabbedSelectorSectionEnabled
      = false := by
  simp [setTabbedSelectorSectionEnabled, setTabbedReplaced_variables]

theorem setThird_false_third (s : SettingsState) :
    (setThirdSectionInfoEnabled s false)._variables.thirdSectionInfoEnabled = false := by
  cases h3 : s._variables.thirdSectionInfoEnabled <;>
    simp [setThirdSectionInfoEnabled, h3, setTabbedReplaced_variables]

theorem setThird_true_tabbed (s : SettingsState) (hx : ExclusivePanels s) :
    (setThirdSectionInfoEnabled s true)._variables.tabbedSelectorSectionEnabled = false := by
  cases h3 : s._variables.thirdSectionInfoEnabled
  · simp [setThirdSectionInfoEnabled, h3, setTabbedSelectorSectionEnabled,
      thirdSectionInfoDisable, setTabbedReplaced_variables]
  · have htab : s._variables.tabbedSelectorSectionEnabled = false := by
      cases ht : s._variables.tabbedSelectorSectionEnabled
      · rfl
      · exact absurd ⟨ht, h3⟩ hx
    simp [setThirdSectionInfoEnabled, h3, htab]

theorem exclusive_of_tabbed_false (s : SettingsState)
    (h : s._variables.tabbedSelectorSectionEnabled = false) : ExclusivePanels s :=
  fun hcon => absurd hcon.1 (by simp [h])

theorem exclusive_of_third_false (s : SettingsState)
    (h : s._variables.thirdSectionInfoEnabled = false) : ExclusivePanels s :=
  fun hcon => absurd hcon.2 (by simp [h])

theorem exclusive_applySetterCall (s : SettingsState) (c : SetterCall)
    (hx : ExclusivePanels s) : ExclusivePanels (applySetterCall s c) := by
  cases c with
  | tabbed b =>
    cases b
    · exact exclusive_of_tabbed_false _ (setTabbed_false_tabbed s)
    · exact exclusive_of_third_false _ (setTabbed_true_third s)
  | third b =>
    cases b
    · exact exclusive_of_third_false _ (setThird_false_third s)
    · exact exclusive_of_tabbed_false _ (setThird_true_tabbed s hx)
  | replaced b =>
    intro hcon
    rw [show applySetterCall s (SetterCall.replaced b) = setTabbedReplacedWithInfo s b
        from rfl, setTabbedReplaced_variables] at hcon
    exact hx hcon

theorem exclusive_foldl (calls : List SetterCall) :
    ∀ s : SettingsState, ExclusivePanels s →
    ExclusivePanels (calls.foldl applySetterCall s) := by
  induction calls with
  | nil => exact fun s hx => hx
  | cons c tl ih =>
    intro s hx
    rw [List.foldl_cons]
    exact ih _ (exclusive_applySetterCall s c hx)

/-- A sample non-default valid record used to instantiate the
round-trip and truncation results. -/
def sampleRecord : Variables :=
  { defaultVariables with
    selectorTab := .Stickers
    tabbedSelectorSectionEnabled := false
    thirdSectionInfoEnabled := true
    soundOverrides := [([65], [66, 67])]
    groupStickersSectionHidden := [5, 9]
    thirdColumnWidth := 512
    supportSwitch := .Previous
    autoDownload := [9, 10] }

theorem sampleRecord_valid : ValidRecord sampleRecord := by
  unfold ValidRecord BoundedFields
  decide

/-- A valid record with the alternate-info panel enabled, used to
exercise the dependent-field rule. -/
def thirdOnRecord : Variables :=
  { defaultVariables with
    tabbedSelectorSectionEnabled := false
    thirdSectionInfoEnabled := true }

theorem thirdOnRecord_valid : ValidRecord thirdOnRecord := by
  unfold ValidRecord BoundedFields
  decide

/-- A valid record carrying a non-empty auto-download sub-blob. -/
def adRecord : Variables := { defaultVariables with autoDownload := [7] }

theorem adRecord_valid : ValidRecord adRecord := by
  unfold ValidRecord BoundedFields
  decide

/-- Claim C1 (corrected): decoding, into a default-constructed record,
the blob produced by encoding a valid settings record r succeeds and
yields a record equal to r in every field except the legacy
calls-peer-to-peer sentinel — always written as 0 by encode, so the
one-time migration flag decodes to false (it is set only when the
decoded value equals the historical sentinel 4) — and except the
dialogs-width ratio, which decodes to its micro-unit quantization
microQuant (round of ratio times one million, snapped to the scale,
divided back); the quantization is forced by the counterexample. -/
theorem claim_C1 (adValid : List Nat → Bool) (r : Variables) (hr : ValidRecord r)
    (had : r.autoDownload = [] ∨ adValid r.autoDownload = true) :
    constructFromSerialized adValid defaultVariables (serialize r)
      = ({ r with
          hadLegacyCallsPeerToPeerNobody := false
          dialogsWidthRatio := microQuant r.dialogsWidthRatio }, .success) := by
  have hexcl : ¬(r.tabbedSelectorSectionEnabled = true ∧ r.thirdSectionInfoEnabled = true) :=
    hr.2.1
  rw [serialize_eq_upTo,
    decode_serializeUpTo adValid r hr 20 (by decide) (by decide) (fun _ => had),
    truncExpected_twenty r hexcl]

/-- Claim C1 counterexample: the valid record with width ratio 1/3
decodes to ratio 333333/1000000, not 1/3, so decode of encode is not
the identity on every non-legacy field. -/
theorem claim_C1_counterexample :
    (constructFromSerialized (fun _ => true) defaultVariables
        (serialize { defaultVariables with dialogsWidthRatio := 1 / 3 })).1.dialogsWidthRatio
      ≠ 1 / 3 := by
  have hvalid : ValidRecord { defaultVariables with dialogsWidthRatio := (1 : ℚ) / 3 } := by
    unfold ValidRecord
    refine ⟨by unfold BoundedFields; decide, by decide, ?_, ?_⟩
    · show (0 : ℚ) ≤ 1 / 3
      norm_num
    · show (1 : ℚ) / 3 ≤ 1
      norm_num
  have h := decode_serializeUpTo (fun _ => true) _ hvalid 20 (by decide) (by decide)
    (fun _ => Or.inl rfl)
  rw [← serialize_eq_upTo] at h
  rw [h]
  show microQuant ((1 : ℚ) / 3) ≠ 1 / 3
  have hq : qRoundQ ((1 : ℚ) / 3 * 1000000) = 333333 := by
    rw [qRoundQ, if_pos (by norm_num)]
    norm_num [Int.floor_eq_iff]
  have hs : snapI 333333 0 1000000 = 333333 := by decide
  rw [microQuant, hq, hs, decodeDialogsWidthRatio_of_mem _ (by decide) (by decide)]
  norm_num

/-- Claim C1 witness: the corrected round trip at a concrete valid
record with non-default fields of every kind. -/
theorem claim_C1_witness :
    ValidRecord sampleRecord ∧
    constructFromSerialized (fun _ => true) defaultVariables (serialize sampleRecord)
      = ({ sampleRecord with
          hadLegacyCallsPeerToPeerNobody := false
          dialogsWidthRatio := microQuant sampleRecord.dialogsWidthRatio }, .success) :=
  ⟨sampleRecord_valid,
   claim_C1 (fun _ => true) sampleRecord sampleRecord_valid (Or.inr rfl)⟩

/-- Claim C2: decoding any non-empty blob whose reading phase fails
(for instance one truncated in the middle of a field) returns the
streamError outcome and leaves the record it was invoked on unchanged;
the status check precedes every field assignment. -/
theorem claim_C2 (adValid : List Nat → Bool) (v : Variables) (blob : List Nat)
    (h1 : blob ≠ []) (h2 : (readAll v blob).2.ok = false) :
    constructFromSerialized adValid v blob = (v, .streamError) :=
  decode_streamError adValid v blob h1 h2

/-- Claim C2 witness: a blob of six bytes is truncated in the middle
of the second field; decode fails and returns the default record
unchanged. -/
theorem claim_C2_witness :
    ([0, 0, 0, 0, 0, 0] : List Nat) ≠ [] ∧
    (readAll defaultVariables [0, 0, 0, 0, 0, 0]).2.ok = false ∧
    constructFromSerialized (fun _ => true) defaultVariables [0, 0, 0, 0, 0, 0]
      = (defaultVariables, .streamError) :=
  ⟨by decide, by decide,
   claim_C2 (fun _ => true) defaultVariables _ (by decide) (by decide)⟩

/-- Claim C3 (corrected): for every k from 2 to 20, decoding, into a
default-constructed record, the blob of a valid record r truncated
right after field group k succeeds; the first k groups carry the
values of r (the dialogs-width ratio as its micro-unit quantization,
as under no truncation) and every remaining field keeps its
compile-time default.  For k = 1 the claim fails: the second field is
read unconditionally, so the blob truncated after group 1 makes the
stream fail and decode returns failure with the record unchanged. -/
theorem claim_C3 (adValid : List Nat → Bool) (r : Variables) (k : Nat)
    (hr : ValidRecord r) (h2 : 2 ≤ k) (h20 : k ≤ 20)
    (had : 17 ≤ k → r.autoDownload = [] ∨ adValid r.autoDownload = true) :
    constructFromSerialized adValid defaultVariables (serializeUpTo r k)
      = (truncExpected r k, .success) :=
  decode_serializeUpTo adValid r hr k h2 h20 had

/-- Claim C3 counterexample: truncating the encoded default record
right after field group 1 does not decode successfully — the stream
fails on the unconditional second read and the record is returned
unchanged with the streamError outcome. -/
theorem claim_C3_counterexample :
    constructFromSerialized (fun _ => true) defaultVariables
        (serializeUpTo defaultVariables 1)
      = (defaultVariables, .streamError) :=
  decode_streamError (fun _ => true) defaultVariables _ (by decide) (by decide)

/-- Claim C3 witness: the truncation result at k = 5 on a concrete
valid record. -/
theorem claim_C3_witness :
    ValidRecord sampleRecord ∧ 2 ≤ 5 ∧ 5 ≤ 20 ∧
    constructFromSerialized (fun _ => true) defaultVariables (serializeUpTo sampleRecord 5)
      = (truncExpected sampleRecord 5, .success) :=
  ⟨sampleRecord_valid, by decide, by decide,
   claim_C3 (fun _ => true) sampleRecord 5 sampleRecord_valid (by decide) (by decide)
     (fun h => absurd h (by decide))⟩

/-- Claim C4: a blob carrying, in the selector-tab slot, any 32-bit
integer outside the legal tag set decodes with the selector-tab field
retaining its prior value, and with exactly the same outcome status as
the same blob carrying a legal tag — the out-of-range value is ignored
rather than treated as a decode error. -/
theorem claim_C4 (adValid : List Nat → Bool) (v : Variables) (t : Int) (rest : List Nat)
    (h1 : -2147483648 ≤ t) (h2 : t < 2147483648) (hbad : selectorTabFromInt t = none) :
    (constructFromSerialized adValid v (writeInt32 t ++ rest)).1.selectorTab
      = v.selectorTab ∧
    (constructFromSerialized adValid v (writeInt32 t ++ rest)).2
      = (constructFromSerialized adValid v (writeInt32 0 ++ rest)).2 := by
  have hra := readAll_selectorTab v t rest h1 h2
  rcases h0 : readAll v (writeInt32 0 ++ rest) with ⟨sc0, s0⟩
  simp only [h0] at hra
  have hne : (writeInt32 t ++ rest) ≠ [] := by simp [writeInt32, writeUInt32]
  have hne0 : (writeInt32 0 ++ rest) ≠ [] := by simp [writeInt32, writeUInt32]
  rw [constructFromSerialized, constructFromSerialized,
    if_neg (by simp [hne]), if_neg (by simp [hne0])]
  simp only [hra, h0]
  by_cases hok : s0.ok = false
  · simp [hok]
  · rw [if_neg hok, if_neg hok]
    by_cases hav : ¬sc0.autoDownload.isEmpty = true ∧ adValid sc0.autoDownload = false
    · rw [if_pos hav, if_pos hav]
      simp
    · rw [if_neg hav, if_neg hav]
      refine ⟨?_, rfl⟩
      rw [commit_selectorTab]
      simp [hbad]

/-- Claim C4 witness: tag 99 is outside the legal set; the blob
decodes with the same (successful) status as with tag 0 and the
selector tab keeps its prior value. -/
theorem claim_C4_witness :
    selectorTabFromInt 99 = none ∧
    (constructFromSerialized (fun _ => true) defaultVariables
        (writeInt32 99 ++ [0, 0, 0, 0])).2 = DecodeStatus.success ∧
    (constructFromSerialized (fun _ => true) defaultVariables
        (writeInt32 99 ++ [0, 0, 0, 0])).1.selectorTab = defaultVariables.selectorTab :=
  ⟨by decide, by decide,
   (claim_C4 (fun _ => true) defaultVariables 99 [0, 0, 0, 0]
     (by decide) (by decide) (by decide)).1⟩

/-- Claim C5: whenever a decode attempt succeeds and the resulting
record has the alternate-info-panel flag set, the tabbed-selector
flag of the resulting record is false — the dependent-field rule runs
after all fields are decoded, so a blob encoding both flags as true
still yields tabbed-selector disabled. -/
theorem claim_C5 (adValid : List Nat → Bool) (v : Variables) (blob : List Nat)
    (hst : (constructFromSerialized adValid v blob).2 = DecodeStatus.success)
    (h3 : (constructFromSerialized adValid v blob).1.thirdSectionInfoEnabled = true) :
    (constructFromSerialized adValid v blob).1.tabbedSelectorSectionEnabled = false := by
  rcases hra : readAll v blob with ⟨sc, s⟩
  rw [constructFromSerialized] at hst h3 ⊢
  by_cases hemp : blob.isEmpty = true
  · rw [if_pos hemp] at hst
    simp at hst
  · rw [if_neg hemp] at hst h3 ⊢
    simp only [hra] at hst h3 ⊢
    by_cases hok : s.ok = false
    · rw [if_pos hok] at hst
      simp at hst
    · rw [if_neg hok] at hst h3 ⊢
      by_cases hav : ¬sc.autoDownload.isEmpty = true ∧ adValid sc.autoDownload = false
      · rw [if_pos hav] at hst
        simp at hst
      · rw [if_neg hav] at h3 ⊢
        exact commit_third_tabbed sc v (by simpa using h3)

/-- Claim C5 witness: a concrete successful decode with the
alternate-info flag set; the tabbed-selector flag comes out false. -/
theorem claim_C5_witness :
    (constructFromSerialized (fun _ => true) defaultVariables (serialize thirdOnRecord)).2
      = DecodeStatus.success ∧
    (constructFromSerialized (fun _ => true) defaultVariables
        (serialize thirdOnRecord)).1.thirdSectionInfoEnabled = true ∧
    (constructFromSerialized (fun _ => true) defaultVariables
        (serialize thirdOnRecord)).1.tabbedSelectorSectionEnabled = false := by
  have h := decode_serializeUpTo (fun _ => true) thirdOnRecord thirdOnRecord_valid 20
    (by decide) (by decide) (fun _ => Or.inl rfl)
  rw [← serialize_eq_upTo] at h
  have h1 : (constructFromSerialized (fun _ => true) defaultVariables
      (serialize thirdOnRecord)).2 = DecodeStatus.success := by rw [h]
  have h2 : (constructFromSerialized (fun _ => true) defaultVariables
      (serialize thirdOnRecord)).1.thirdSectionInfoEnabled = true := by
    rw [h]
    rfl
  exact ⟨h1, h2, claim_C5 (fun _ => true) defaultVariables (serialize thirdOnRecord) h1 h2⟩

/-- Claim C6: if the reading phase of a decode attempt succeeds with a
non-empty auto-download sub-blob that the delegated decoder rejects,
the whole decode fails with the autoDownloadError outcome and the
record it was invoked on is unchanged — the malformed sub-blob is not
isolated into a partial success. -/
theorem claim_C6 (adValid : List Nat → Bool) (v : Variables) (blob : List Nat)
    (sc : Scratch) (s : ByteStream) (h1 : blob ≠ [])
    (hra : readAll v blob = (sc, s)) (hok : s.ok = true)
    (hne : sc.autoDownload ≠ []) (hrej : adValid sc.autoDownload = false) :
    constructFromSerialized adValid v blob = (v, .autoDownloadError) :=
  decode_autoDownloadError adValid v blob sc s h1 hra hok hne hrej

/-- Claim C6 witness: a record encoding auto-download bytes that the
delegated decoder (here: rejecting everything) refuses; the outer
decode aborts with the record unchanged. -/
theorem claim_C6_witness :
    serializeUpTo adRecord 20 ≠ [] ∧
    (scratchUpTo adRecord 20 defaultVariables).autoDownload ≠ [] ∧
    constructFromSerialized (fun _ => false) defaultVariables (serializeUpTo adRecord 20)
      = (defaultVariables, .autoDownloadError) := by
  have hra := readAll_upTo adRecord adRecord_valid 20 (by decide) (by decide) defaultVariables
  rw [foldl_updStep adRecord defaultVariables 20 (by decide)] at hra
  refine ⟨by decide, by decide, ?_⟩
  exact claim_C6 (fun _ => false) defaultVariables _ _ _ (by decide) hra rfl
    (by decide) rfl

/-- Claim C7: the dialogs-width ratio is decoded from its raw 4-byte
integer (the value scaled by 1,000,000) by dividing back and snapping
into the unit interval: a raw value in range divides back exactly, a
raw value beyond 1,000,000 decodes to ratio 1, and a negative raw
value decodes to ratio 0. -/
theorem claim_C7 (v : Int) :
    (0 ≤ v → v ≤ 1000000 → decodeDialogsWidthRatio v = (v : ℚ) / 1000000) ∧
    (1000000 < v → decodeDialogsWidthRatio v = 1) ∧
    (v < 0 → decodeDialogsWidthRatio v = 0) := by
  refine ⟨fun h1 h2 => decodeDialogsWidthRatio_of_mem v h1 h2, fun h => ?_, fun h => ?_⟩
  · unfold decodeDialogsWidthRatio snapQ
    have q1 : (0 : ℚ) ≤ (v : ℚ) / 1000000 :=
      div_nonneg (by exact_mod_cast (by omega : (0 : Int) ≤ v)) (by norm_num)
    have q2 : (1 : ℚ) ≤ (v : ℚ) / 1000000 := by
      rw [le_div_iff₀ (by norm_num)]
      exact_mod_cast (by omega : (1000000 : Int) ≤ v)
    rw [max_eq_left q1, min_eq_right q2]
  · unfold decodeDialogsWidthRatio snapQ
    have q1 : (v : ℚ) / 1000000 ≤ 0 := by
      apply div_nonpos_of_nonpos_of_nonneg _ (by norm_num)
      exact_mod_cast (by omega : v ≤ (0 : Int))
    rw [max_eq_right q1]
    rw [min_eq_left (by norm_num)]

/-- Claim C7 witness: raw value 1500000 decodes to ratio 1 and raw
value -5 decodes to ratio 0. -/
theorem claim_C7_witness :
    ((1000000 : Int) < 1500000 ∧ decodeDialogsWidthRatio 1500000 = 1) ∧
    ((-5 : Int) < 0 ∧ decodeDialogsWidthRatio (-5) = 0) :=
  ⟨⟨by decide, (claim_C7 1500000).2.1 (by decide)⟩,
   ⟨by decide, (claim_C7 (-5)).2.2 (by decide)⟩⟩

/-- Claim C8: the tabbed-selector and third-section-info flags are
mutually exclusive under the setter operations: enabling the tabbed
selector disables the info panel unconditionally; enabling the info
panel, from any state where the flags are not already both set (the
only states the program can construct), leaves the tabbed selector
disabled; and no sequence of setter calls started from such a state
ever makes both flags true. -/
theorem claim_C8 (s : SettingsState) (hx : ExclusivePanels s) :
    (setTabbedSelectorSectionEnabled s true)._variables.thirdSectionInfoEnabled = false ∧
    (setThirdSectionInfoEnabled s true)._variables.tabbedSelectorSectionEnabled = false ∧
    ∀ calls : List SetterCall, ExclusivePanels (calls.foldl applySetterCall s) :=
  ⟨setTabbed_true_third s, setThird_true_tabbed s hx,
   fun calls => exclusive_foldl calls s hx⟩

/-- Claim C8 witness: from the default state (tabbed selector on, info
panel off), enabling the info panel leaves the tabbed selector off. -/
theorem claim_C8_witness :
    ExclusivePanels ⟨defaultVariables, false⟩ ∧
    (setThirdSectionInfoEnabled ⟨defaultVariables, false⟩ true)._variables.tabbedSelectorSectionEnabled
      = false :=
  ⟨by unfold ExclusivePanels; decide,
   (claim_C8 ⟨defaultVariables, false⟩ (by unfold ExclusivePanels; decide)).2.1⟩

/-- Claim C9: decoding the empty blob returns at once with the
distinguished empty-blob outcome: every field of the record is
unchanged and no bad-data diagnostic is emitted (the diagnostic
belongs only to the stream-error outcome). -/
theorem claim_C9 (adValid : List Nat → Bool) (v : Variables) :
    constructFromSerialized adValid v [] = (v, .emptyBlob) ∧
    emitsDiagnostic DecodeStatus.emptyBlob = false :=
  ⟨rfl, rfl⟩

/-- Claim C10: the two counting loops of the reading phase run their
32-bit count modulo 2^32, so the number of iterations is finite —
below 2^32 — for every count a 4-byte field can decode to, negative
counts and counts exceeding the available elements included; decode in
this development is a total function built from these bounded loops. -/
theorem claim_C10 (count : Int) (h1 : -2147483648 ≤ count) (h2 : count < 2147483648) :
    loopIterations count < 4294967296 ∧
    (0 ≤ count → loopIterations count = count.toNat) ∧
    (count < 0 → loopIterations count = (count + 4294967296).toNat) := by
  unfold loopIterations
  refine ⟨by omega, fun h => by omega, fun h => by omega⟩

/-- Claim C10 witness: the loop for count -1 runs 4294967295 times and
in particular terminates. -/
theorem claim_C10_witness :
    (-2147483648 : Int) ≤ -1 ∧ (-1 : Int) < 2147483648 ∧
    loopIterations (-1) < 4294967296 :=
  ⟨by decide, by decide, (claim_C10 (-1) (by decide) (by decide)).1⟩

end AuthSessionSettings
